import Mathlib

/-!
Verification development for the E-Coleta Telegram intake bot
(`api/telegram.ts`): a shallow embedding of its conversation-draft state
machine, validators, session store and schedule catalog, together with
theorems checking the specification's claims against that embedding.

Strings are modelled through their character lists; JavaScript machine
floats never flow into any verified computation (the classifier score is
carried opaquely as a rational).
-/

namespace Ecoleta

/-! ## String helpers (embedding the JS string operations used) -/

/-- Right side of JS `String.prototype.trim`, on a character list. -/
def trimRightL (l : List Char) : List Char :=
  (l.reverse.dropWhile Char.isWhitespace).reverse

/-- JS `txt.trim()`. -/
def trimS (s : String) : String :=
  String.mk (trimRightL (s.toList.dropWhile Char.isWhitespace))

/-- The source helper `onlyDigits`: `(s || "").replace(/\D/g, "")`, list form. -/
def onlyDigitsL (l : List Char) : List Char := l.filter Char.isDigit

/-- The source helper `onlyDigits` on strings. -/
def onlyDigitsS (s : String) : String := String.mk (onlyDigitsL s.toList)

/-- Numeric value of a decimal digit character (JS `parseInt` on one digit). -/
def digitVal (c : Char) : Nat := c.toNat - 48

/-- Accumulator for the decimal value of an all-digit character list. -/
def natOfDigitsAux : List Char → Nat → Nat
  | [], acc => acc
  | c :: cs, acc => natOfDigitsAux cs (acc * 10 + digitVal c)

/-- Decimal value of an all-digit character list; `[]` gives 0, matching
JS `Number("") === 0`.  (Float overflow above 1e308 is not modelled.) -/
def natOfDigits (l : List Char) : Nat := natOfDigitsAux l 0

/-- JS `Number(s)` restricted to the shapes this bot produces: the empty
string evaluates to 0, an all-digit string to its decimal value, and
anything else is treated as `NaN` (`none`). -/
def jsNumber (s : String) : Option Nat :=
  let l := s.toList
  if l.isEmpty then some 0
  else if l.all Char.isDigit then some (natOfDigits l)
  else none

/-! ## Validators (`isValidCPF`, `isValidPhone`) -/

/-- Loop body of `calc` inside `isValidCPF`: digits are multiplied by a
factor that starts at `factor` and decreases by one per position
(`total += parseInt(base[i]) * factor--`). -/
def cpfWeightedTotal : List Char → Nat → Nat
  | [], _ => 0
  | c :: cs, factor => digitVal c * factor + cpfWeightedTotal cs (factor - 1)

/-- The inner `calc(base, factor)` of `isValidCPF`:
`rest = (total * 10) % 11; return rest === 10 ? 0 : rest`. -/
def cpfCalc (base : List Char) (factor : Nat) : Nat :=
  let rest := cpfWeightedTotal base factor * 10 % 11
  if rest = 10 then 0 else rest

/-- The source validator `isValidCPF`.  It strips non-digits, rejects
anything that is not exactly 11 digits (`!cpf || cpf.length !== 11`),
rejects a repeated single digit (`/^(\d)\1+$/`, which needs length at
least 2), and otherwise compares the two computed check digits with
positions 10 and 11. -/
def isValidCPF (cpfRaw : String) : Bool :=
  let cpf := onlyDigitsL cpfRaw.toList
  if cpf = [] ∨ cpf.length ≠ 11 then false
  else if 2 ≤ cpf.length ∧ cpf.all (fun c => c = cpf.headD '0') then false
  else
    let d1 := cpfCalc (cpf.take 9) 10
    let d2 := cpfCalc (cpf.take 10) 11
    (d1 == digitVal (cpf.getD 9 '0')) && (d2 == digitVal (cpf.getD 10 '0'))

/-- The source validator `isValidPhone`: digit count after stripping must
be exactly 10 or 11. -/
def isValidPhone (p : String) : Bool :=
  let d := onlyDigitsL p.toList
  d.length == 10 || d.length == 11

/-! ### Specification-side restatement of the national-ID checksum

Written from the spec's words for claim C1 (weights as an explicit
descending list combined by `zipWith`), to be compared with the
source-derived `isValidCPF`. -/

/-- Check digit as worded in the spec: a mod-11 weighted sum with weights
descending from `w0`, remainder of ten times the total mod 11, with 10
mapped to 0. -/
def specCheckDigit (base : List Char) (w0 : Nat) : Nat :=
  let weights := (List.range base.length).map (fun i => w0 - i)
  let total := (List.zipWith (fun c w => digitVal c * w) base weights).sum
  let r := total * 10 % 11
  if r = 10 then 0 else r

/-- National-ID validity as worded in the spec: reject if not exactly 11
digits or all digits identical; otherwise both check digits (weights from
10 over the first 9 digits, from 11 over the first 10) must match
positions 10 and 11. -/
def cpfSpec (s : String) : Bool :=
  let cpf := onlyDigitsL s.toList
  if cpf.length ≠ 11 then false
  else if cpf.all (fun c => c = cpf.headD '0') then false
  else (specCheckDigit (cpf.take 9) 10 == digitVal (cpf.getD 9 '0')) &&
       (specCheckDigit (cpf.take 10) 11 == digitVal (cpf.getD 10 '0'))

lemma cpfWeightedTotal_eq_spec (l : List Char) (f : Nat) :
    cpfWeightedTotal l f =
      (List.zipWith (fun c w => digitVal c * w) l
        ((List.range l.length).map (fun i => f - i))).sum := by
  induction l generalizing f with
  | nil => rfl
  | cons c cs ih =>
    simp only [cpfWeightedTotal, List.length_cons, List.range_succ_eq_map,
      List.map_cons, List.map_map, List.zipWith_cons_cons, List.sum_cons,
      Nat.sub_zero]
    congr 1
    rw [ih (f - 1)]
    congr 1
    congr 1
    apply List.map_congr_left
    intro i _
    simp only [Function.comp_apply]
    omega

lemma cpfCalc_eq_spec (base : List Char) (f : Nat) :
    cpfCalc base f = specCheckDigit base f := by
  unfold cpfCalc specCheckDigit
  rw [cpfWeightedTotal_eq_spec]

lemma toList_onlyDigitsS (s : String) :
    (onlyDigitsS s).toList = onlyDigitsL s.toList := rfl

/-! ## Data model (`Pred`, `UserInfo`, `Address`, `Schedule`, `Step`, `Draft`) -/

/-- Classifier prediction `{ label, score }`.  The score is a JS float the
bot only ever carries around; it is embedded as a rational. -/
structure Pred where
  label : String
  score : Rat
deriving DecidableEq

/-- The `UserInfo` record; each field is optional until filled. -/
structure UserInfo where
  name : Option String
  cpf : Option String
  phone : Option String
deriving DecidableEq

/-- Empty object `{}` used for a fresh `user`. -/
def emptyUser : UserInfo := ⟨none, none, none⟩

/-- The `Address` record. -/
structure Address where
  cep : Option String
  logradouro : Option String
  bairro : Option String
  localidade : Option String
  uf : Option String
  numero : Option String
  complemento : Option String
deriving DecidableEq

/-- Empty object `{}` used for a fresh `address`. -/
def emptyAddress : Address := ⟨none, none, none, none, none, none, none⟩

/-- The `Schedule` record. -/
structure Schedule where
  day : Option String
  time : Option String
deriving DecidableEq

/-- Empty object `{}` used for a fresh `schedule`. -/
def emptySchedule : Schedule := ⟨none, none⟩

/-- The `Step` union type. -/
inductive Step
  | name
  | cpf
  | phone
  | await_photo
  | await_confirm
  | await_qty
  | await_cep
  | await_number
  | await_day
  | await_time
deriving DecidableEq

/-- The `Draft` record.  Every field is optional, as in the source.  A JS
`qty` of `NaN` (reachable through a forged callback payload) is conflated
with an absent `qty`: both are falsy in every guard the code performs. -/
structure Draft where
  step : Option Step
  user : Option UserInfo
  item : Option Pred
  qty : Option Nat
  address : Option Address
  schedule : Option Schedule
  latestFileId : Option String
  latestFileUrl : Option String
deriving DecidableEq

/-- JS truthiness of an optional string: present and non-empty. -/
def truthy : Option String → Bool
  | none => false
  | some s => !s.toList.isEmpty

/-- JS truthiness of the optional numeric `qty` (`NaN`, absence and 0 are
all falsy; `NaN` is conflated with absence in the embedding). -/
def qtyTruthy : Option Nat → Bool
  | none => false
  | some q => q != 0

/-- Optional chain `d.user?.name`. -/
def uname (d : Draft) : Option String := d.user.bind UserInfo.name

/-- Optional chain `d.user?.cpf`. -/
def ucpf (d : Draft) : Option String := d.user.bind UserInfo.cpf

/-- Optional chain `d.user?.phone`. -/
def uphone (d : Draft) : Option String := d.user.bind UserInfo.phone

/-- Optional chain `d.address?.cep`. -/
def acep (d : Draft) : Option String := d.address.bind Address.cep

/-! ## SessionStore (in-memory fallback, `inMemoryStore`)

The in-process fallback keeps `Map<string, { v, exp }>` with
`exp = Date.now() + ttlSec * 1000` on `set`, and `get` answers `undefined`
once `Date.now() > exp`.  Time is threaded explicitly (`now`, in
milliseconds).  The Upstash REST variant round-trips the same data through
JSON over the network and answers `undefined` on any backend error; only
its absent/present result shape is relevant to the claims and it is
subsumed by `Option` results below. -/

/-- One stored entry `{ v, exp }`. -/
structure MemEntry (α : Type) where
  v : α
  exp : Nat
deriving DecidableEq

/-- The backing `Map`, as an association list where the most recent
binding for a key shadows older ones. -/
abbrev Mem (α : Type) := List (String × MemEntry α)

/-- The constant `DRAFT_TTL = 60 * 60 * 2` seconds. -/
def DRAFT_TTL : Nat := 60 * 60 * 2

/-- The fallback store's `get`: absent key or expired entry gives
`undefined`. -/
def memGet (mem : Mem α) (key : String) (now : Nat) : Option α :=
  match List.find? (fun p => p.1 == key) mem with
  | none => none
  | some p => if now > p.2.exp then none else some p.2.v

/-- The fallback store's `set`: `mem.set(key, { v: value, exp: Date.now()
+ ttlSec * 1000 })`, replacing any previous binding. -/
def memSet (mem : Mem α) (key : String) (value : α) (ttlSec : Nat)
    (now : Nat) : Mem α :=
  (key, ⟨value, now + ttlSec * 1000⟩) ::
    List.filter (fun p => p.1 != key) mem

/-- Key derivation `draftKey`. -/
def draftKey (chatId : Int) : String := "ecoleta:draft:" ++ toString chatId

/-- The fresh draft `{ step: "name", user: {}, address: {}, schedule: {} }`. -/
def initialDraft : Draft :=
  { step := some Step.name, user := some emptyUser, item := none,
    qty := none, address := some emptyAddress, schedule := some emptySchedule,
    latestFileId := none, latestFileUrl := none }

/-- The function `getDraft` applied to whatever the store answered:
`d ?? { step: "name", user: {}, address: {}, schedule: {} }`. -/
def getDraft (stored : Option Draft) : Draft := stored.getD initialDraft

/-- The function `getDraft` composed with the fallback store's `get`. -/
def getDraftFrom (mem : Mem Draft) (chatId : Int) (now : Nat) : Draft :=
  getDraft (memGet mem (draftKey chatId) now)

/-! ## ScheduleCatalog (`nextDays`, `TIME_SLOTS`, keyboard data)

Calendar days are day numbers since 1970-01-01; `isoOfDay` renders the
`toISOString().slice(0, 10)` form through the standard civil-from-days
conversion.  The locale-formatted button labels are presentation only and
are not modelled; keyboards are modelled by the callback-data strings
their buttons carry. -/

/-- Gregorian date (year, month, day) of a day number since 1970-01-01. -/
def civilFromDays (days : Nat) : Nat × Nat × Nat :=
  let z := days + 719468
  let era := z / 146097
  let doe := z % 146097
  let yoe := (doe - doe / 1460 + doe / 36524 - doe / 146096) / 365
  let y := yoe + era * 400
  let doy := doe - (365 * yoe + yoe / 4 - yoe / 100)
  let mp := (5 * doy + 2) / 153
  let dd := doy - (153 * mp + 2) / 5 + 1
  let m := if mp < 10 then mp + 3 else mp - 9
  (if m ≤ 2 then y + 1 else y, m, dd)

/-- Zero padding to two digits, as in an ISO date. -/
def pad2 (n : Nat) : String := if n < 10 then "0" ++ toString n else toString n

/-- ISO rendering `YYYY-MM-DD` of a day number. -/
def isoOfDay (day : Nat) : String :=
  let c := civilFromDays day
  toString c.1 ++ "-" ++ pad2 c.2.1 ++ "-" ++ pad2 c.2.2

/-- The fixed slot catalog `TIME_SLOTS`. -/
def TIME_SLOTS : List String := ["09:00", "11:00", "14:00", "16:00", "18:00"]

/-- The `nextDays(n)` generator: ISO dates of `today + i` for `i < n`. -/
def nextDays (today n : Nat) : List String :=
  (List.range n).map (fun i => isoOfDay (today + i))

/-- Callback data of a button, the template `` `k:p` ``. -/
def cbData (k p : String) : String := String.mk (k.toList ++ ':' :: p.toList)

/-- Callback data carried by `kbDays()`: one `day:ISO` button per
generated day, then `cancel`. -/
def kbDaysData (today : Nat) : List String :=
  (nextDays today 7).map (cbData "day") ++ ["cancel"]

/-- Callback data carried by `kbTimes(dayISO)`: one `time:ISOTslot` button
per slot, then `back:days` and `cancel`. -/
def kbTimesData (dayISO : String) : List String :=
  TIME_SLOTS.map (fun t => cbData "time" (dayISO ++ "T" ++ t)) ++
    ["back:days", "cancel"]

/-- Callback data carried by `kbQty()`: `qty:1` … `qty:6`, `qty:range`,
`qty:other`. -/
def kbQtyData : List String :=
  ["qty:1", "qty:2", "qty:3", "qty:4", "qty:5", "qty:6", "qty:range",
   "qty:other"]

/-- Callback data carried by `kbConfirm(label)`. -/
def kbConfirmData : List String := ["confirm:yes", "confirm:no"]

/-! ## Formatting helpers -/

/-- The `LABEL_PT` translation table. -/
def LABEL_PT : List (String × String) :=
  [("Battery", "Bateria"), ("Keyboard", "Teclado"),
   ("Microwave", "Micro-ondas"), ("Mobile", "Celular"), ("Mouse", "Mouse"),
   ("PCB", "Placa de circuito"), ("Player", "Reprodutor"),
   ("Printer", "Impressora"), ("Television", "Televisão"),
   ("Washing Machine", "Máquina de lavar")]

/-- Lookup `toPT`: `LABEL_PT[en] ?? en`. -/
def toPT (en : String) : String :=
  (Option.map Prod.snd (List.find? (fun p => p.1 == en) LABEL_PT)).getD en

/-- Rendering `formatAddressPT`: optional segments, JS-falsy ones dropped,
joined with a bullet separator. -/
def formatAddressPT (a : Address) : String :=
  let s1 : Option String :=
    if truthy a.logradouro && truthy a.numero then
      some (a.logradouro.getD "" ++ ", " ++ a.numero.getD "")
    else a.logradouro
  let s3 : Option String :=
    if truthy a.localidade && truthy a.uf then
      some (a.localidade.getD "" ++ "/" ++ a.uf.getD "")
    else if truthy a.localidade then a.localidade else a.uf
  let s5 : Option String :=
    if truthy a.cep then some ("CEP " ++ a.cep.getD "") else a.cep
  let parts := List.filter (fun s => truthy (some s))
    (List.filterMap id [s1, a.bairro, s3, a.complemento, s5])
  String.intercalate " • " parts

/-- The reformatting of a validated 11-digit national ID,
`cpf.replace(/(\d{3})(\d{3})(\d{3})(\d{2})/, "$1.$2.$3-$4")`.  Its call
site only reaches it with exactly 11 digits; on anything else the regex
would not match there and the string is returned unchanged. -/
def formatCPF (cpf : String) : String :=
  let l := cpf.toList
  if l.length = 11 ∧ l.all Char.isDigit then
    String.mk (l.take 3 ++ '.' :: (l.drop 3).take 3 ++ '.' ::
      (l.drop 6).take 3 ++ '-' :: l.drop 9)
  else cpf

/-- The reformatting of a validated phone number (10 or 11 digits at its
call site). -/
def formatPhone (digits : String) : String :=
  let l := digits.toList
  if l.length = 11 ∧ l.all Char.isDigit then
    String.mk ('(' :: l.take 2 ++ ')' :: ' ' :: (l.drop 2).take 5 ++
      '-' :: l.drop 7)
  else if l.length = 10 ∧ l.all Char.isDigit then
    String.mk ('(' :: l.take 2 ++ ')' :: ' ' :: (l.drop 2).take 4 ++
      '-' :: l.drop 6)
  else digits

/-- Parse of the house-number reply, the regex
`/^\s*(\d+)\s*(.*)$/` followed by `m[2].trim() || undefined`.  Without
the `s` or `m` flags, `.` cannot cross a newline and `$` anchors at the
very end, so a leftover newline makes the whole match fail. -/
def parseNumero (txt : String) : Option (String × Option String) :=
  let t := txt.toList.dropWhile Char.isWhitespace
  let ds := t.takeWhile Char.isDigit
  let r := (t.drop ds.length).dropWhile Char.isWhitespace
  if ds.isEmpty || r.contains '\n' then none
  else
    let comp := trimRightL r
    some (String.mk ds,
      if comp.isEmpty then none else some (String.mk comp))

/-- Split of callback data as `data.split(":")` destructured into the
first segment and the `":"`-rejoin of the remaining ones. -/
def splitKey (data : String) : String × String :=
  let l := data.toList
  let k := l.takeWhile (fun c => c != ':')
  match l.drop k.length with
  | [] => (String.mk k, "")
  | _ :: rest => (String.mk k, String.mk rest)

/-- Destructuring `const [dayISO, time] = iso.split("T")`: first segment,
and second segment when a `T` occurs. -/
def splitT (iso : String) : String × Option String :=
  let l := iso.toList
  let a := l.takeWhile (fun c => c != 'T')
  match l.drop a.length with
  | [] => (String.mk a, none)
  | _ :: rest =>
      (String.mk a, some (String.mk (rest.takeWhile (fun c => c != 'T'))))

/-! ## Reply texts -/

def msgGreeting : String :=
  "Olá! Eu sou o bot da E-Coleta ♻️\n\nVamos começar com seus dados.\n\n👉 *Seu nome completo?*"

def msgCancelled : String :=
  "Fluxo cancelado. Envie /start para começar novamente."

def msgAskCPF : String :=
  "Ótimo! Agora informe seu *CPF* (somente números)."

def msgCPFInvalid : String :=
  "CPF inválido. Tente novamente (somente números)."

def msgAskPhone : String :=
  "Perfeito. Informe seu *telefone com DDD* (ex.: 11987654321)."

def msgPhoneInvalid : String :=
  "Telefone inválido. Envie no formato com DDD (ex.: 11987654321)."

def msgDataSaved : String :=
  "Dados salvos! ✅ Agora, envie uma *foto* do item (ou como *Arquivo* para melhor qualidade)."

def msgGotDataSendPhoto : String :=
  "Recebi seus dados! Agora envie uma *foto* do item (ou *Arquivo* para melhor qualidade)."

def msgQtyInvalid : String :=
  "Quantidade inválida. Envie um número inteiro maior que 0."

def msgAskCEP : String :=
  "Agora, informe seu *CEP* (somente números)."

def msgCEPInvalid : String :=
  "CEP inválido. Envie 8 dígitos (ex.: 01001000)."

def msgCEPNotFound : String :=
  "CEP não encontrado. Verifique e envie novamente."

def msgCEPFail : String :=
  "Falha ao consultar o CEP. Tente novamente em instantes."

def msgNumberInvalid : String :=
  "Informe o número (ex.: 123) e, opcionalmente, complemento (ex.: 123, apto 45)."

def msgSendStart : String :=
  "Envie /start para iniciar o fluxo de agendamento. 😉"

def msgFollow : String :=
  "Beleza! Siga as instruções acima ou envie /cancel para recomeçar."

def msgNeedName : String :=
  "Antes de processar a foto, me informe seu *Nome completo*."

def msgNeedCPF : String :=
  "Agora, informe seu *CPF* (somente números)."

def msgNeedPhone : String :=
  "Perfeito. Informe seu *telefone com DDD* (ex.: 11987654321)."

def msgNotImage : String :=
  "Envie um *arquivo de imagem* (JPG/PNG)."

def msgAITimeout : String :=
  "⏱️ O servidor de IA demorou para responder. Tente novamente ou envie como *Arquivo* (sem compressão)."

def msgPhotoFail : String :=
  "❌ Não consegui processar. Tente enviar como *Arquivo* (sem compressão)."

def msgDocFail : String :=
  "❌ Não consegui baixar/processar o arquivo. Tente novamente."

def msgQtyPrompt : String :=
  "Perfeito! Quantas unidades você deseja descartar?"

def msgSendAnother : String :=
  "Sem problemas. Envie outra *foto* do item (de preferência como *Arquivo* para melhor qualidade)."

def msgTypeQty : String :=
  "Digite a *quantidade* (número inteiro):"

def msgChooseTime : String :=
  "Escolha um horário:"

def msgLostState : String :=
  "Quase lá! Parece que o servidor reiniciou e perdi parte do estado.\n\n👉 Envie /start para reiniciar rapidamente, ou reenvie o CEP para retomarmos o passo atual."

/-- Reply of a successful classification. -/
def msgDetected (labelPT : String) : String :=
  "Detectei: *" ++ labelPT ++ "*.\nEstá correto?"

/-- Reply after a quantity was chosen (by button or digits). -/
def msgQtyChosen (q : String) : String :=
  "Ok! Quantidade: *" ++ q ++ "*.\nAgora, informe seu *CEP* (somente números)."

/-- Reply announcing the looked-up address. -/
def msgAddrFound (addr : Address) : String :=
  "Endereço encontrado pelo CEP:\n• " ++ formatAddressPT addr ++
    "\n\n👉 Informe o *número* da residência (e complemento se houver)."

/-- Reply announcing the completed address. -/
def msgFullAddr (addr : Address) : String :=
  "Endereço completo:\n*" ++ formatAddressPT addr ++
    "*\n\nAgora, escolha a *data* da coleta:"

/-- Completion summary; the locale-formatted date label is abstracted to
the ISO day. -/
def msgSummary (nd : Draft) (dayISO time : String) : String :=
  String.intercalate "\n"
    ["✅ *Pedido de coleta registrado!*",
     "• Nome: *" ++ (uname nd).getD "" ++ "*",
     "• CPF: *" ++ (ucpf nd).getD "" ++ "*",
     "• Telefone: *" ++ (uphone nd).getD "" ++ "*",
     "• Item: *" ++ toPT ((Option.map Pred.label nd.item).getD "") ++ "*",
     "• Quantidade: *" ++ toString (nd.qty.getD 0) ++ "*",
     "• Endereço: *" ++ formatAddressPT (nd.address.getD emptyAddress) ++ "*",
     "• Data/Hora: *" ++ dayISO ++ " às *" ++ time ++ "*",
     "",
     "_(Aviso: em ambiente serverless o estado pode reiniciar no cold start.)_"]

/-! ## ConversationEngine

One inbound event is processed against the Draft loaded from the store;
the external collaborators (file retrieval plus classification pipeline,
and the postal lookup) are oracles.  A classification failure is either a
timeout (`ECONNABORTED`) or any other failure, matching the two remedial
messages; the postal lookup either fails in transport, answers a
not-found flag, or succeeds. -/

/-- Failure modes of the image pipeline (`getFileBuffer`/`classifyImage`,
including an empty prediction list, thrown as an error). -/
inductive ClassifyErr
  | timeout
  | failure
deriving DecidableEq

/-- Response shape of the postal lookup. -/
structure ViaCEP where
  cep : Option String
  logradouro : Option String
  bairro : Option String
  localidade : Option String
  uf : Option String
  complemento : Option String
  erro : Bool
deriving DecidableEq

/-- The external collaborators, keyed by file id and normalized postal
code; `Except.error ()` on the lookup is a transport failure. -/
structure Oracles where
  fileUrl : String → String
  classify : String → Except ClassifyErr Pred
  viacep : String → Except Unit ViaCEP

/-- Mime check `doc.mime_type?.startsWith("image/")`. -/
def mimeIsImage : Option String → Bool
  | none => false
  | some m => m.toList.take 6 == "image/".toList

/-- The `handleImage` routine: classify, then merge the file reference,
its URL, the top prediction and the `await_confirm` step, and produce the
confirmation prompt.  A thrown error leaves the merge unperformed. -/
def handleImage (o : Oracles) (d : Draft) (fileId : String) :
    Except ClassifyErr (Draft × String) :=
  match o.classify fileId with
  | Except.error e => Except.error e
  | Except.ok top =>
      Except.ok ({ d with latestFileId := some fileId,
                          latestFileUrl := some (o.fileUrl fileId),
                          item := some top,
                          step := some Step.await_confirm },
        msgDetected (toPT top.label))

/-- The `message:photo` handler: always stash the file id, then either
reprompt for the next missing profile field or classify. -/
def photoStep (o : Oracles) (d : Draft) (fileId : String) : Draft × String :=
  let d1 := { d with latestFileId := some fileId }
  if truthy (uname d) = false then (d1, msgNeedName)
  else if truthy (ucpf d) = false then (d1, msgNeedCPF)
  else if truthy (uphone d) = false then (d1, msgNeedPhone)
  else
    match handleImage o d1 fileId with
    | Except.ok r => r
    | Except.error ClassifyErr.timeout => (d1, msgAITimeout)
    | Except.error ClassifyErr.failure => (d1, msgPhotoFail)

/-- The `message:document` handler: identical to the photo handler after
an image mime-type check that precedes any merge. -/
def documentStep (o : Oracles) (d : Draft) (mimeType : Option String)
    (fileId : String) : Draft × String :=
  if mimeIsImage mimeType = false then (d, msgNotImage)
  else
    let d1 := { d with latestFileId := some fileId }
    if truthy (uname d) = false then (d1, msgNeedName)
    else if truthy (ucpf d) = false then (d1, msgNeedCPF)
    else if truthy (uphone d) = false then (d1, msgNeedPhone)
    else
      match handleImage o d1 fileId with
      | Except.ok r => r
      | Except.error ClassifyErr.timeout => (d1, msgAITimeout)
      | Except.error ClassifyErr.failure => (d1, msgDocFail)

/-- The `callback_query:data` handler.  No branch checks the current
step.  The `time:` branch merges the chosen schedule, then either reports
lost state or emits the summary; in both cases the step is untouched and
the draft is not reset. -/
def callbackStep (d : Draft) (data : String) : Draft × Option String :=
  let kp := splitKey data
  let key := kp.1
  let payload := kp.2
  if key = "confirm" then
    if payload = "yes" then
      ({ d with step := some Step.await_qty }, some msgQtyPrompt)
    else if payload = "no" then
      ({ d with item := none, step := some Step.await_photo },
       some msgSendAnother)
    else (d, none)
  else if key = "qty" then
    if payload = "other" ∨ payload = "range" then
      ({ d with step := some Step.await_qty }, some msgTypeQty)
    else
      match jsNumber payload with
      | some v =>
          let q := max 1 (min 999 v)
          ({ d with qty := some q, step := some Step.await_cep },
           some (msgQtyChosen (toString q)))
      | none =>
          ({ d with qty := none, step := some Step.await_cep },
           some (msgQtyChosen "NaN"))
  else if key = "back" ∧ payload = "days" then (d, none)
  else if key = "day" then
    ({ d with
        schedule := some { (d.schedule.getD emptySchedule) with day := some payload },
        step := some Step.await_time }, some msgChooseTime)
  else if key = "time" then
    let dt := splitT payload
    let nd := { d with schedule := some ⟨some dt.1, dt.2⟩ }
    if truthy (uname nd) = false ∨ truthy (ucpf nd) = false ∨
        truthy (uphone nd) = false ∨ nd.item.isSome = false ∨
        qtyTruthy nd.qty = false ∨ truthy (acep nd) = false then
      (nd, some msgLostState)
    else (nd, some (msgSummary nd dt.1 (dt.2.getD "undefined")))
  else if key = "cancel" then (initialDraft, some msgCancelled)
  else (d, none)

/-- The `message:text` handler: profile fields, manual quantity, postal
code, house number, and the two fallthrough replies. -/
def textStep (o : Oracles) (d : Draft) (txt0 : String) : Draft × String :=
  let txt := trimS txt0
  if d.step = some Step.name ∨ truthy (uname d) = false then
    ({ d with user := some { (d.user.getD emptyUser) with name := some txt },
              step := some Step.cpf }, msgAskCPF)
  else if d.step = some Step.cpf ∨
      (truthy (ucpf d) = false ∧ truthy (uname d) = true) then
    let cpf := onlyDigitsS txt
    if isValidCPF cpf = false then (d, msgCPFInvalid)
    else
      ({ d with
          user := some { (d.user.getD emptyUser) with cpf := some (formatCPF cpf) },
          step := some Step.phone }, msgAskPhone)
  else if d.step = some Step.phone ∨
      (truthy (uphone d) = false ∧ truthy (ucpf d) = true) then
    if isValidPhone txt = false then (d, msgPhoneInvalid)
    else
      let digits := onlyDigitsS txt
      let nd := { d with
          user := some { (d.user.getD emptyUser) with phone := some (formatPhone digits) },
          step := some Step.await_photo }
      match nd.latestFileId with
      | some fid =>
          (match handleImage o nd fid with
           | Except.ok r => r
           | Except.error ClassifyErr.timeout => (nd, msgAITimeout)
           | Except.error ClassifyErr.failure => (nd, msgGotDataSendPhoto))
      | none => (nd, msgDataSaved)
  else if d.step = some Step.await_qty ∧ d.item.isSome = true ∧
      qtyTruthy d.qty = false then
    let q := natOfDigits (onlyDigitsL txt.toList)
    if q = 0 then (d, msgQtyInvalid)
    else
      ({ d with qty := some (min 999 q), step := some Step.await_cep },
       msgAskCEP)
  else if d.step = some Step.await_cep ∧ d.item.isSome = true ∧
      qtyTruthy d.qty = true ∧ truthy (acep d) = false then
    let cep := onlyDigitsS txt
    if cep.toList.length ≠ 8 then (d, msgCEPInvalid)
    else
      match o.viacep cep with
      | Except.error _ => (d, msgCEPFail)
      | Except.ok via =>
          if via.erro then (d, msgCEPNotFound)
          else
            let addr : Address :=
              ⟨via.cep, via.logradouro, via.bairro, via.localidade, via.uf,
               none, via.complemento⟩
            ({ d with address := some addr, step := some Step.await_number },
             msgAddrFound addr)
  else if d.step = some Step.await_number ∧ d.item.isSome = true ∧
      qtyTruthy d.qty = true ∧ truthy (acep d) = true then
    match parseNumero txt with
    | none => (d, msgNumberInvalid)
    | some nc =>
        let addr := { (d.address.getD emptyAddress) with
            numero := some nc.1, complemento := nc.2 }
        ({ d with address := some addr, step := some Step.await_day },
         msgFullAddr addr)
  else if d.step = none then (d, msgSendStart)
  else (d, msgFollow)

/-- Inbound events: free text, the two media shapes, a discrete
selection, and the draft-resetting commands. -/
inductive Ev
  | text (txt : String)
  | photo (fileId : String)
  | document (mimeType : Option String) (fileId : String)
  | callback (data : String)
  | cmdStart
  | cmdCancel
deriving DecidableEq

/-- One event-processing unit: dispatch to the matching handler.
`/start` and `/cancel` both store the fresh draft. -/
def stepFn (o : Oracles) (d : Draft) : Ev → Draft × Option String
  | Ev.text t => let r := textStep o d t; (r.1, some r.2)
  | Ev.photo f => let r := photoStep o d f; (r.1, some r.2)
  | Ev.document m f => let r := documentStep o d m f; (r.1, some r.2)
  | Ev.callback data => callbackStep d data
  | Ev.cmdStart => (initialDraft, some msgGreeting)
  | Ev.cmdCancel => (initialDraft, some msgCancelled)

/-! ## Step ordering, well-formed drafts and offered events -/

/-- Position of a step in the fixed ordering of the wizard. -/
def ordNat : Step → Nat
  | Step.name => 0
  | Step.cpf => 1
  | Step.phone => 2
  | Step.await_photo => 3
  | Step.await_confirm => 4
  | Step.await_qty => 5
  | Step.await_cep => 6
  | Step.await_number => 7
  | Step.await_day => 8
  | Step.await_time => 9

/-- Position of an optional step (an absent step sorts first). -/
def ordOpt : Option Step → Nat
  | none => 0
  | some s => ordNat s

/-- Field presence consistent with the current step: exactly what the
normal flow establishes before reaching each step. -/
def wellFormed (d : Draft) : Prop :=
  match d.step with
  | some Step.name => True
  | some Step.cpf => truthy (uname d) = true
  | some Step.phone => truthy (uname d) = true ∧ truthy (ucpf d) = true
  | some Step.await_photo =>
      truthy (uname d) = true ∧ truthy (ucpf d) = true ∧
        truthy (uphone d) = true
  | some Step.await_confirm =>
      truthy (uname d) = true ∧ truthy (ucpf d) = true ∧
        truthy (uphone d) = true ∧ d.item.isSome = true
  | some Step.await_qty =>
      truthy (uname d) = true ∧ truthy (ucpf d) = true ∧
        truthy (uphone d) = true ∧ d.item.isSome = true ∧
        qtyTruthy d.qty = false
  | some Step.await_cep =>
      truthy (uname d) = true ∧ truthy (ucpf d) = true ∧
        truthy (uphone d) = true ∧ d.item.isSome = true ∧
        qtyTruthy d.qty = true ∧ truthy (acep d) = false
  | some Step.await_number =>
      truthy (uname d) = true ∧ truthy (ucpf d) = true ∧
        truthy (uphone d) = true ∧ d.item.isSome = true ∧
        qtyTruthy d.qty = true ∧ truthy (acep d) = true
  | some Step.await_day =>
      truthy (uname d) = true ∧ truthy (ucpf d) = true ∧
        truthy (uphone d) = true ∧ d.item.isSome = true ∧
        qtyTruthy d.qty = true ∧ truthy (acep d) = true
  | some Step.await_time =>
      truthy (uname d) = true ∧ truthy (ucpf d) = true ∧
        truthy (uphone d) = true ∧ d.item.isSome = true ∧
        qtyTruthy d.qty = true ∧ truthy (acep d) = true
  | none => False

/-- The events the bot itself offers at a given step: free text is always
possible, media belongs to the profile/photo phase, and a selection must
come from the keyboard shown at that step (`cancel` is additionally a
command-like escape on several keyboards). -/
def offeredAt (today : Nat) (d : Draft) : Ev → Prop
  | Ev.text _ => True
  | Ev.photo _ =>
      d.step = some Step.name ∨ d.step = some Step.cpf ∨
        d.step = some Step.phone ∨ d.step = some Step.await_photo
  | Ev.document _ _ =>
      d.step = some Step.name ∨ d.step = some Step.cpf ∨
        d.step = some Step.phone ∨ d.step = some Step.await_photo
  | Ev.callback data =>
      (d.step = some Step.await_confirm ∧ data ∈ kbConfirmData) ∨
        (d.step = some Step.await_qty ∧ data ∈ kbQtyData) ∨
        (d.step = some Step.await_day ∧ data ∈ kbDaysData today) ∨
        (d.step = some Step.await_time ∧ ∃ iso, data ∈ kbTimesData iso) ∨
        data = "cancel"
  | Ev.cmdStart => True
  | Ev.cmdCancel => True

/-! ## Concrete fixtures used by counterexamples and witnesses -/

/-- Oracle stub whose collaborators all fail; no accepted-path theorem
relies on it succeeding. -/
def oraclesStub : Oracles :=
  { fileUrl := fun _ => "", classify := fun _ => Except.error ClassifyErr.failure,
    viacep := fun _ => Except.error () }

/-- A complete profile fixture. -/
def userMaria : UserInfo :=
  ⟨some "Maria Silva", some "529.982.247-25", some "(11) 98765-4321"⟩

/-- Draft whose step claims the national-ID state while the user record
is still empty. -/
def draftCpfNoName : Draft :=
  { step := some Step.cpf, user := some emptyUser, item := none, qty := none,
    address := some emptyAddress, schedule := some emptySchedule,
    latestFileId := none, latestFileUrl := none }

/-- Draft legitimately at the national-ID state. -/
def draftCpf : Draft :=
  { step := some Step.cpf, user := some ⟨some "Maria Silva", none, none⟩,
    item := none, qty := none, address := some emptyAddress,
    schedule := some emptySchedule, latestFileId := none,
    latestFileUrl := none }

/-- Draft at the confirmation state. -/
def draftConfirm : Draft :=
  { step := some Step.await_confirm, user := some userMaria,
    item := some ⟨"Battery", 1⟩, qty := none, address := some emptyAddress,
    schedule := some emptySchedule, latestFileId := some "file1",
    latestFileUrl := none }

/-- Draft at the quantity state. -/
def draftQty : Draft :=
  { step := some Step.await_qty, user := some userMaria,
    item := some ⟨"Battery", 1⟩, qty := none, address := some emptyAddress,
    schedule := some emptySchedule, latestFileId := some "file1",
    latestFileUrl := none }

/-- Draft at the postal-code state. -/
def draftCep : Draft :=
  { step := some Step.await_cep, user := some userMaria,
    item := some ⟨"Battery", 1⟩, qty := some 3,
    address := some emptyAddress, schedule := some emptySchedule,
    latestFileId := some "file1", latestFileUrl := none }

/-- Draft at the day-selection state. -/
def draftDay : Draft :=
  { step := some Step.await_day, user := some userMaria,
    item := some ⟨"Battery", 1⟩, qty := some 3,
    address := some ⟨some "01001-000", some "Praça da Sé", some "Sé",
      some "São Paulo", some "SP", some "100", none⟩,
    schedule := some emptySchedule, latestFileId := some "file1",
    latestFileUrl := none }

/-- Oracle fixture with a succeeding classifier and a succeeding postal
lookup for the canonical code. -/
def oraclesHappy : Oracles :=
  { fileUrl := fun fid => "https://files/" ++ fid,
    classify := fun _ => Except.ok ⟨"Battery", 1⟩,
    viacep := fun c =>
      if c = "01001000" then
        Except.ok ⟨some "01001-000", some "Praça da Sé", some "Sé",
          some "São Paulo", some "SP", none, false⟩
      else Except.ok ⟨none, none, none, none, none, none, true⟩ }

/-- Draft at the phone state with a stashed media reference. -/
def draftPhoneStash : Draft :=
  { step := some Step.phone,
    user := some ⟨some "Maria Silva", some "529.982.247-25", none⟩,
    item := none, qty := none, address := some emptyAddress,
    schedule := some emptySchedule, latestFileId := some "file1",
    latestFileUrl := none }

/-! ## Helper lemmas -/

lemma takeWhile_all_append {q : Char → Bool} {l1 l2 : List Char} {c : Char}
    (h1 : ∀ a ∈ l1, q a = true) (hc : q c = false) :
    (l1 ++ c :: l2).takeWhile q = l1 := by
  induction l1 with
  | nil => simp [List.takeWhile_cons, hc]
  | cons a as ih =>
      have ha : q a = true := h1 a (by simp)
      simp only [List.cons_append, List.takeWhile_cons, ha, if_true]
      rw [ih (fun x hx => h1 x (by simp [hx]))]

/-- Splitting template callback data recovers the key and the payload. -/
lemma splitKey_cbData (k p : String)
    (hk : ∀ c ∈ k.toList, (c != ':') = true) :
    splitKey (cbData k p) = (k, p) := by
  unfold splitKey cbData
  have h1 : ((String.mk (k.toList ++ ':' :: p.toList)).toList).takeWhile
      (fun c => c != ':') = k.toList :=
    takeWhile_all_append hk (by decide)
  simp only [h1]
  have h2 : ((String.mk (k.toList ++ ':' :: p.toList)).toList).drop
      k.toList.length = ':' :: p.toList := List.drop_left k.toList _
  simp only [h2]
  rfl

/-- Template data coincides with the string concatenation the source
writes. -/
lemma cbData_eq_append (k p : String) : cbData k p = k ++ ":" ++ p := by
  apply String.ext
  simp [cbData, String.data_append]

section TextBranches

variable (o : Oracles) (d : Draft) (txt : String)

lemma textStep_name
    (h : d.step = some Step.name ∨ truthy (uname d) = false) :
    textStep o d txt =
      ({ d with
          user := some { (d.user.getD emptyUser) with name := some (trimS txt) },
          step := some Step.cpf }, msgAskCPF) := by
  simp only [textStep]
  rw [if_pos h]

lemma textStep_cpf_reject
    (h1 : ¬(d.step = some Step.name ∨ truthy (uname d) = false))
    (h2 : d.step = some Step.cpf ∨
      (truthy (ucpf d) = false ∧ truthy (uname d) = true))
    (hv : isValidCPF (onlyDigitsS (trimS txt)) = false) :
    textStep o d txt = (d, msgCPFInvalid) := by
  simp only [textStep]
  rw [if_neg h1, if_pos h2, if_pos hv]

lemma textStep_cpf_accept
    (h1 : ¬(d.step = some Step.name ∨ truthy (uname d) = false))
    (h2 : d.step = some Step.cpf ∨
      (truthy (ucpf d) = false ∧ truthy (uname d) = true))
    (hv : isValidCPF (onlyDigitsS (trimS txt)) = true) :
    textStep o d txt =
      ({ d with
          user := some { (d.user.getD emptyUser) with
            cpf := some (formatCPF (onlyDigitsS (trimS txt))) },
          step := some Step.phone }, msgAskPhone) := by
  simp only [textStep]
  rw [if_neg h1, if_pos h2, if_neg (by simp [hv])]

lemma textStep_phone_reject
    (h1 : ¬(d.step = some Step.name ∨ truthy (uname d) = false))
    (h2 : ¬(d.step = some Step.cpf ∨
      (truthy (ucpf d) = false ∧ truthy (uname d) = true)))
    (h3 : d.step = some Step.phone ∨
      (truthy (uphone d) = false ∧ truthy (ucpf d) = true))
    (hv : isValidPhone (trimS txt) = false) :
    textStep o d txt = (d, msgPhoneInvalid) := by
  simp only [textStep]
  rw [if_neg h1, if_neg h2, if_pos h3, if_pos hv]

lemma textStep_phone_accept_noFile
    (h1 : ¬(d.step = some Step.name ∨ truthy (uname d) = false))
    (h2 : ¬(d.step = some Step.cpf ∨
      (truthy (ucpf d) = false ∧ truthy (uname d) = true)))
    (h3 : d.step = some Step.phone ∨
      (truthy (uphone d) = false ∧ truthy (ucpf d) = true))
    (hv : isValidPhone (trimS txt) = true)
    (hf : d.latestFileId = none) :
    textStep o d txt =
      ({ d with
          user := some { (d.user.getD emptyUser) with
            phone := some (formatPhone (onlyDigitsS (trimS txt))) },
          step := some Step.await_photo }, msgDataSaved) := by
  simp only [textStep]
  rw [if_neg h1, if_neg h2, if_pos h3, if_neg (by simp [hv])]
  simp only [hf]

lemma textStep_phone_accept_classified (fid : String) (p : Pred)
    (h1 : ¬(d.step = some Step.name ∨ truthy (uname d) = false))
    (h2 : ¬(d.step = some Step.cpf ∨
      (truthy (ucpf d) = false ∧ truthy (uname d) = true)))
    (h3 : d.step = some Step.phone ∨
      (truthy (uphone d) = false ∧ truthy (ucpf d) = true))
    (hv : isValidPhone (trimS txt) = true)
    (hf : d.latestFileId = some fid)
    (hc : o.classify fid = Except.ok p) :
    textStep o d txt =
      ({ d with
          user := some { (d.user.getD emptyUser) with
            phone := some (formatPhone (onlyDigitsS (trimS txt))) },
          step := some Step.await_confirm,
          latestFileId := some fid,
          latestFileUrl := some (o.fileUrl fid),
          item := some p }, msgDetected (toPT p.label)) := by
  simp only [textStep]
  rw [if_neg h1, if_neg h2, if_pos h3, if_neg (by simp [hv])]
  simp only [hf, handleImage, hc]

lemma textStep_phone_accept_classifyErr (fid : String) (e : ClassifyErr)
    (h1 : ¬(d.step = some Step.name ∨ truthy (uname d) = false))
    (h2 : ¬(d.step = some Step.cpf ∨
      (truthy (ucpf d) = false ∧ truthy (uname d) = true)))
    (h3 : d.step = some Step.phone ∨
      (truthy (uphone d) = false ∧ truthy (ucpf d) = true))
    (hv : isValidPhone (trimS txt) = true)
    (hf : d.latestFileId = some fid)
    (hc : o.classify fid = Except.error e) :
    textStep o d txt =
      ({ d with
          user := some { (d.user.getD emptyUser) with
            phone := some (formatPhone (onlyDigitsS (trimS txt))) },
          step := some Step.await_photo },
       match e with
       | ClassifyErr.timeout => msgAITimeout
       | ClassifyErr.failure => msgGotDataSendPhoto) := by
  simp only [textStep]
  rw [if_neg h1, if_neg h2, if_pos h3, if_neg (by simp [hv])]
  simp only [hf, handleImage, hc]
  cases e <;> rfl

lemma textStep_qty_reject
    (h1 : ¬(d.step = some Step.name ∨ truthy (uname d) = false))
    (h2 : ¬(d.step = some Step.cpf ∨
      (truthy (ucpf d) = false ∧ truthy (uname d) = true)))
    (h3 : ¬(d.step = some Step.phone ∨
      (truthy (uphone d) = false ∧ truthy (ucpf d) = true)))
    (h4 : d.step = some Step.await_qty ∧ d.item.isSome = true ∧
      qtyTruthy d.qty = false)
    (hq : natOfDigits (onlyDigitsL (trimS txt).toList) = 0) :
    textStep o d txt = (d, msgQtyInvalid) := by
  simp only [textStep]
  rw [if_neg h1, if_neg h2, if_neg h3, if_pos h4, if_pos hq]

lemma textStep_qty_accept
    (h1 : ¬(d.step = some Step.name ∨ truthy (uname d) = false))
    (h2 : ¬(d.step = some Step.cpf ∨
      (truthy (ucpf d) = false ∧ truthy (uname d) = true)))
    (h3 : ¬(d.step = some Step.phone ∨
      (truthy (uphone d) = false ∧ truthy (ucpf d) = true)))
    (h4 : d.step = some Step.await_qty ∧ d.item.isSome = true ∧
      qtyTruthy d.qty = false)
    (hq : natOfDigits (onlyDigitsL (trimS txt).toList) ≠ 0) :
    textStep o d txt =
      ({ d with
          qty := some (min 999 (natOfDigits (onlyDigitsL (trimS txt).toList))),
          step := some Step.await_cep }, msgAskCEP) := by
  simp only [textStep]
  rw [if_neg h1, if_neg h2, if_neg h3, if_pos h4, if_neg hq]

lemma textStep_cep_badlen
    (h1 : ¬(d.step = some Step.name ∨ truthy (uname d) = false))
    (h2 : ¬(d.step = some Step.cpf ∨
      (truthy (ucpf d) = false ∧ truthy (uname d) = true)))
    (h3 : ¬(d.step = some Step.phone ∨
      (truthy (uphone d) = false ∧ truthy (ucpf d) = true)))
    (h4 : ¬(d.step = some Step.await_qty ∧ d.item.isSome = true ∧
      qtyTruthy d.qty = false))
    (h5 : d.step = some Step.await_cep ∧ d.item.isSome = true ∧
      qtyTruthy d.qty = true ∧ truthy (acep d) = false)
    (hlen : (onlyDigitsS (trimS txt)).toList.length ≠ 8) :
    textStep o d txt = (d, msgCEPInvalid) := by
  simp only [textStep]
  rw [if_neg h1, if_neg h2, if_neg h3, if_neg h4, if_pos h5, if_pos hlen]

lemma textStep_cep_fail
    (h1 : ¬(d.step = some Step.name ∨ truthy (uname d) = false))
    (h2 : ¬(d.step = some Step.cpf ∨
      (truthy (ucpf d) = false ∧ truthy (uname d) = true)))
    (h3 : ¬(d.step = some Step.phone ∨
      (truthy (uphone d) = false ∧ truthy (ucpf d) = true)))
    (h4 : ¬(d.step = some Step.await_qty ∧ d.item.isSome = true ∧
      qtyTruthy d.qty = false))
    (h5 : d.step = some Step.await_cep ∧ d.item.isSome = true ∧
      qtyTruthy d.qty = true ∧ truthy (acep d) = false)
    (hlen : (onlyDigitsS (trimS txt)).toList.length = 8)
    (hv : o.viacep (onlyDigitsS (trimS txt)) = Except.error ()) :
    textStep o d txt = (d, msgCEPFail) := by
  simp only [textStep]
  rw [if_neg h1, if_neg h2, if_neg h3, if_neg h4, if_pos h5,
    if_neg (fun hh => hh hlen)]
  simp only [hv]

lemma textStep_cep_notFound (via : ViaCEP)
    (h1 : ¬(d.step = some Step.name ∨ truthy (uname d) = false))
    (h2 : ¬(d.step = some Step.cpf ∨
      (truthy (ucpf d) = false ∧ truthy (uname d) = true)))
    (h3 : ¬(d.step = some Step.phone ∨
      (truthy (uphone d) = false ∧ truthy (ucpf d) = true)))
    (h4 : ¬(d.step = some Step.await_qty ∧ d.item.isSome = true ∧
      qtyTruthy d.qty = false))
    (h5 : d.step = some Step.await_cep ∧ d.item.isSome = true ∧
      qtyTruthy d.qty = true ∧ truthy (acep d) = false)
    (hlen : (onlyDigitsS (trimS txt)).toList.length = 8)
    (hv : o.viacep (onlyDigitsS (trimS txt)) = Except.ok via)
    (herr : via.erro = true) :
    textStep o d txt = (d, msgCEPNotFound) := by
  simp only [textStep]
  rw [if_neg h1, if_neg h2, if_neg h3, if_neg h4, if_pos h5,
    if_neg (fun hh => hh hlen)]
  simp only [hv]
  rw [if_pos herr]

lemma textStep_cep_ok (via : ViaCEP)
    (h1 : ¬(d.step = some Step.name ∨ truthy (uname d) = false))
    (h2 : ¬(d.step = some Step.cpf ∨
      (truthy (ucpf d) = false ∧ truthy (uname d) = true)))
    (h3 : ¬(d.step = some Step.phone ∨
      (truthy (uphone d) = false ∧ truthy (ucpf d) = true)))
    (h4 : ¬(d.step = some Step.await_qty ∧ d.item.isSome = true ∧
      qtyTruthy d.qty = false))
    (h5 : d.step = some Step.await_cep ∧ d.item.isSome = true ∧
      qtyTruthy d.qty = true ∧ truthy (acep d) = false)
    (hlen : (onlyDigitsS (trimS txt)).toList.length = 8)
    (hv : o.viacep (onlyDigitsS (trimS txt)) = Except.ok via)
    (herr : via.erro = false) :
    textStep o d txt =
      ({ d with
          address := some ⟨via.cep, via.logradouro, via.bairro,
            via.localidade, via.uf, none, via.complemento⟩,
          step := some Step.await_number },
       msgAddrFound ⟨via.cep, via.logradouro, via.bairro, via.localidade,
         via.uf, none, via.complemento⟩) := by
  simp only [textStep]
  rw [if_neg h1, if_neg h2, if_neg h3, if_neg h4, if_pos h5,
    if_neg (fun hh => hh hlen)]
  simp only [hv]
  rw [if_neg (by simp [herr])]

lemma textStep_number_reject
    (h1 : ¬(d.step = some Step.name ∨ truthy (uname d) = false))
    (h2 : ¬(d.step = some Step.cpf ∨
      (truthy (ucpf d) = false ∧ truthy (uname d) = true)))
    (h3 : ¬(d.step = some Step.phone ∨
      (truthy (uphone d) = false ∧ truthy (ucpf d) = true)))
    (h4 : ¬(d.step = some Step.await_qty ∧ d.item.isSome = true ∧
      qtyTruthy d.qty = false))
    (h5 : ¬(d.step = some Step.await_cep ∧ d.item.isSome = true ∧
      qtyTruthy d.qty = true ∧ truthy (acep d) = false))
    (h6 : d.step = some Step.await_number ∧ d.item.isSome = true ∧
      qtyTruthy d.qty = true ∧ truthy (acep d) = true)
    (hp : parseNumero (trimS txt) = none) :
    textStep o d txt = (d, msgNumberInvalid) := by
  simp only [textStep]
  rw [if_neg h1, if_neg h2, if_neg h3, if_neg h4, if_neg h5, if_pos h6]
  simp only [hp]

lemma textStep_number_accept (nc : String × Option String)
    (h1 : ¬(d.step = some Step.name ∨ truthy (uname d) = false))
    (h2 : ¬(d.step = some Step.cpf ∨
      (truthy (ucpf d) = false ∧ truthy (uname d) = true)))
    (h3 : ¬(d.step = some Step.phone ∨
      (truthy (uphone d) = false ∧ truthy (ucpf d) = true)))
    (h4 : ¬(d.step = some Step.await_qty ∧ d.item.isSome = true ∧
      qtyTruthy d.qty = false))
    (h5 : ¬(d.step = some Step.await_cep ∧ d.item.isSome = true ∧
      qtyTruthy d.qty = true ∧ truthy (acep d) = false))
    (h6 : d.step = some Step.await_number ∧ d.item.isSome = true ∧
      qtyTruthy d.qty = true ∧ truthy (acep d) = true)
    (hp : parseNumero (trimS txt) = some nc) :
    textStep o d txt =
      ({ d with
          address := some { (d.address.getD emptyAddress) with
            numero := some nc.1, complemento := nc.2 },
          step := some Step.await_day },
       msgFullAddr { (d.address.getD emptyAddress) with
         numero := some nc.1, complemento := nc.2 }) := by
  simp only [textStep]
  rw [if_neg h1, if_neg h2, if_neg h3, if_neg h4, if_neg h5, if_pos h6]
  simp only [hp]

lemma textStep_fallthrough
    (h1 : ¬(d.step = some Step.name ∨ truthy (uname d) = false))
    (h2 : ¬(d.step = some Step.cpf ∨
      (truthy (ucpf d) = false ∧ truthy (uname d) = true)))
    (h3 : ¬(d.step = some Step.phone ∨
      (truthy (uphone d) = false ∧ truthy (ucpf d) = true)))
    (h4 : ¬(d.step = some Step.await_qty ∧ d.item.isSome = true ∧
      qtyTruthy d.qty = false))
    (h5 : ¬(d.step = some Step.await_cep ∧ d.item.isSome = true ∧
      qtyTruthy d.qty = true ∧ truthy (acep d) = false))
    (h6 : ¬(d.step = some Step.await_number ∧ d.item.isSome = true ∧
      qtyTruthy d.qty = true ∧ truthy (acep d) = true))
    (h7 : d.step ≠ none) :
    textStep o d txt = (d, msgFollow) := by
  simp only [textStep]
  rw [if_neg h1, if_neg h2, if_neg h3, if_neg h4, if_neg h5, if_neg h6,
    if_neg h7]

end TextBranches

section CallbackBranches

variable (d : Draft)

lemma callbackStep_confirm_yes :
    callbackStep d "confirm:yes" =
      ({ d with step := some Step.await_qty }, some msgQtyPrompt) := rfl

lemma callbackStep_confirm_no :
    callbackStep d "confirm:no" =
      ({ d with item := none, step := some Step.await_photo },
       some msgSendAnother) := rfl

lemma callbackStep_cancel :
    callbackStep d "cancel" = (initialDraft, some msgCancelled) := rfl

lemma callbackStep_back_days :
    callbackStep d "back:days" = (d, none) := rfl

lemma callbackStep_day (p : String) :
    callbackStep d (cbData "day" p) =
      ({ d with
          schedule := some { (d.schedule.getD emptySchedule) with
            day := some p },
          step := some Step.await_time }, some msgChooseTime) := by
  unfold callbackStep
  rw [splitKey_cbData "day" p (by decide)]
  rfl

lemma callbackStep_time (p : String) :
    callbackStep d (cbData "time" p) =
      (let dt := splitT p
       let nd : Draft := { d with schedule := some ⟨some dt.1, dt.2⟩ }
       if truthy (uname nd) = false ∨ truthy (ucpf nd) = false ∨
           truthy (uphone nd) = false ∨ nd.item.isSome = false ∨
           qtyTruthy nd.qty = false ∨ truthy (acep nd) = false then
         (nd, some msgLostState)
       else (nd, some (msgSummary nd dt.1 (dt.2.getD "undefined")))) := by
  unfold callbackStep
  rw [splitKey_cbData "time" p (by decide)]
  rfl

lemma callbackStep_qty_num (p : String) (v : Nat)
    (ho : p ≠ "other") (hr : p ≠ "range")
    (hn : jsNumber p = some v) :
    callbackStep d (cbData "qty" p) =
      ({ d with
          qty := some (max 1 (min 999 v)),
          step := some Step.await_cep },
       some (msgQtyChosen (toString (max 1 (min 999 v))))) := by
  unfold callbackStep
  rw [splitKey_cbData "qty" p (by decide)]
  dsimp only
  rw [if_neg (by decide : ¬(("qty" : String) = "confirm")),
    if_pos (rfl : ("qty" : String) = "qty"),
    if_neg (fun h => h.elim ho hr), hn]

lemma callbackStep_qty_sym (p : String) (h : p = "other" ∨ p = "range") :
    callbackStep d (cbData "qty" p) =
      ({ d with step := some Step.await_qty }, some msgTypeQty) := by
  unfold callbackStep
  rw [splitKey_cbData "qty" p (by decide)]
  dsimp only
  rw [if_neg (by decide : ¬(("qty" : String) = "confirm")),
    if_pos (rfl : ("qty" : String) = "qty"), if_pos h]

lemma callbackStep_time_step (p : String) :
    (callbackStep d (cbData "time" p)).1.step = d.step := by
  rw [callbackStep_time]
  dsimp only
  split <;> rfl

end CallbackBranches

lemma photoStep_step (o : Oracles) (d : Draft) (fid : String) :
    (photoStep o d fid).1.step = d.step ∨
    (photoStep o d fid).1.step = some Step.await_confirm := by
  simp only [photoStep]
  by_cases h1 : truthy (uname d) = false
  · rw [if_pos h1]
    left
    rfl
  rw [if_neg h1]
  by_cases h2 : truthy (ucpf d) = false
  · rw [if_pos h2]
    left
    rfl
  rw [if_neg h2]
  by_cases h3 : truthy (uphone d) = false
  · rw [if_pos h3]
    left
    rfl
  rw [if_neg h3]
  cases hc : o.classify fid with
  | error e =>
      simp only [handleImage, hc]
      cases e
      · left
        rfl
      · left
        rfl
  | ok p =>
      simp only [handleImage, hc]
      right
      trivial

lemma documentStep_step (o : Oracles) (d : Draft) (m : Option String)
    (fid : String) :
    (documentStep o d m fid).1.step = d.step ∨
    (documentStep o d m fid).1.step = some Step.await_confirm := by
  simp only [documentStep]
  by_cases h0 : mimeIsImage m = false
  · rw [if_pos h0]
    left
    rfl
  rw [if_neg h0]
  by_cases h1 : truthy (uname d) = false
  · rw [if_pos h1]
    left
    rfl
  rw [if_neg h1]
  by_cases h2 : truthy (ucpf d) = false
  · rw [if_pos h2]
    left
    rfl
  rw [if_neg h2]
  by_cases h3 : truthy (uphone d) = false
  · rw [if_pos h3]
    left
    rfl
  rw [if_neg h3]
  cases hc : o.classify fid with
  | error e =>
      simp only [handleImage, hc]
      cases e
      · left
        rfl
      · left
        rfl
  | ok p =>
      simp only [handleImage, hc]
      right
      trivial

/-! ## Claim C1: the national-ID validator -/

/-- C1: `isValidCPF`, applied to the digit-stripped input, returns false
when the input is not exactly 11 digits or all digits are identical;
otherwise it agrees with the spec-side mod-11 check-digit computation
(`cpfSpec`); and it accepts `52998224725` while rejecting `11111111111`
and `52998224724`. -/
theorem c1_national_id_validator :
    (∀ s : String, (onlyDigitsS s).toList.length ≠ 11 →
      isValidCPF s = false) ∧
    (∀ (s : String) (c : Char), (onlyDigitsS s).toList = List.replicate 11 c →
      isValidCPF s = false) ∧
    (∀ s : String, isValidCPF s = cpfSpec s) ∧
    isValidCPF "52998224725" = true ∧
    isValidCPF "11111111111" = false ∧
    isValidCPF "52998224724" = false := by
  refine ⟨?_, ?_, ?_, by decide, by decide, by decide⟩
  · intro s h
    rw [toList_onlyDigitsS] at h
    simp only [isValidCPF]
    rw [if_pos (Or.inr h)]
  · intro s c h
    rw [toList_onlyDigitsS] at h
    simp only [isValidCPF]
    rw [h, if_neg (by simp), if_pos]
    refine ⟨by simp, ?_⟩
    simp [List.all_eq_true, List.mem_replicate]
  · intro s
    simp only [isValidCPF, cpfSpec]
    by_cases h11 : (onlyDigitsL s.toList).length = 11
    · have hne : ¬(onlyDigitsL s.toList = [] ∨
          (onlyDigitsL s.toList).length ≠ 11) := by
        rintro (he | hl)
        · rw [he] at h11
          exact absurd h11 (by decide)
        · exact hl h11
      have hr1 : ¬((onlyDigitsL s.toList).length ≠ 11) := fun hh => hh h11
      rw [if_neg hne, if_neg hr1]
      by_cases hall : (onlyDigitsL s.toList).all
          (fun c => c = (onlyDigitsL s.toList).headD '0') = true
      · have hl2 : 2 ≤ (onlyDigitsL s.toList).length ∧
            (onlyDigitsL s.toList).all
              (fun c => c = (onlyDigitsL s.toList).headD '0') = true :=
          ⟨by omega, hall⟩
        rw [if_pos hl2, if_pos hall]
      · have hl2 : ¬(2 ≤ (onlyDigitsL s.toList).length ∧
            (onlyDigitsL s.toList).all
              (fun c => c = (onlyDigitsL s.toList).headD '0') = true) :=
          fun hh => hall hh.2
        rw [if_neg hl2, if_neg hall, cpfCalc_eq_spec, cpfCalc_eq_spec]
    · rw [if_pos (Or.inr h11), if_pos h11]

/-- Witness for C1: concrete inputs discharging each hypothesis. -/
theorem c1_witness :
    ((onlyDigitsS "123").toList.length ≠ 11 ∧ isValidCPF "123" = false) ∧
    ((onlyDigitsS "22222222222").toList = List.replicate 11 '2' ∧
      isValidCPF "22222222222" = false) :=
  ⟨⟨by decide, c1_national_id_validator.1 "123" (by decide)⟩,
   ⟨by decide, c1_national_id_validator.2.1 "22222222222" '2' (by decide)⟩⟩

/-! ## Claim C2: store round trip with expiry -/

/-- C2: storing a draft under a key with a TTL and reading it back before
the TTL has elapsed returns exactly the stored draft; reading it back
after the TTL has elapsed returns absent.  Times are milliseconds, the
TTL is seconds, matching `exp = Date.now() + ttlSec * 1000` and the
`Date.now() > exp` expiry test. -/
theorem c2_store_roundtrip (mem : Mem Draft) (k : String) (v : Draft)
    (t now q : Nat) :
    (q < now + t * 1000 →
      memGet (memSet mem k v t now) k q = some v) ∧
    (now + t * 1000 < q →
      memGet (memSet mem k v t now) k q = none) := by
  have key : (k == k) = true := by simp
  constructor
  · intro h
    simp only [memGet, memSet, List.find?, key]
    rw [if_neg (by omega : ¬(q > now + t * 1000))]
  · intro h
    simp only [memGet, memSet, List.find?, key]
    rw [if_pos (by omega : q > now + t * 1000)]

/-- Witness for C2: a concrete draft stored for the draft TTL is there one
second later and gone one millisecond after expiry. -/
theorem c2_witness :
    (1000 < 0 + DRAFT_TTL * 1000 ∧
      memGet (memSet [] (draftKey 42) initialDraft DRAFT_TTL 0)
        (draftKey 42) 1000 = some initialDraft) ∧
    (0 + DRAFT_TTL * 1000 < 7200001 ∧
      memGet (memSet [] (draftKey 42) initialDraft DRAFT_TTL 0)
        (draftKey 42) 7200001 = none) :=
  ⟨⟨by decide,
    (c2_store_roundtrip [] (draftKey 42) initialDraft DRAFT_TTL 0 1000).1
      (by decide)⟩,
   ⟨by decide,
    (c2_store_roundtrip [] (draftKey 42) initialDraft DRAFT_TTL 0 7200001).2
      (by decide)⟩⟩

/-! ## Claim C4: cancellation resets unconditionally -/

/-- C4: for every draft in every state, the `cancel` selection and the
`/cancel` command replace the draft by the initial one: step `name`,
empty user, address and schedule, and no item, quantity, schedule values
or stashed media reference. -/
theorem c4_cancel_resets :
    (∀ d : Draft, callbackStep d "cancel" = (initialDraft, some msgCancelled)) ∧
    (∀ (o : Oracles) (d : Draft),
      stepFn o d Ev.cmdCancel = (initialDraft, some msgCancelled)) ∧
    initialDraft.step = some Step.name ∧
    initialDraft.user = some emptyUser ∧
    initialDraft.address = some emptyAddress ∧
    initialDraft.schedule = some emptySchedule ∧
    initialDraft.item = none ∧
    initialDraft.qty = none ∧
    initialDraft.latestFileId = none :=
  ⟨fun d => callbackStep_cancel d, fun _ _ => rfl, rfl, rfl, rfl, rfl, rfl,
    rfl, rfl⟩

/-! ## Claim C10: getDraft is total and defaults to the fresh draft -/

/-- C10: when the store holds nothing for the conversation key (never
written, expired, or the backend answered absent after an error),
`getDraft` returns exactly the fresh initial draft. -/
theorem c10_getDraft_total :
    (∀ (mem : Mem Draft) (chatId : Int) (now : Nat),
      memGet mem (draftKey chatId) now = none →
      getDraftFrom mem chatId now = initialDraft) ∧
    (∀ (chatId : Int) (now : Nat), getDraftFrom [] chatId now = initialDraft) ∧
    (∀ (mem : Mem Draft) (chatId : Int) (dr : Draft) (ttl t0 now : Nat),
      t0 + ttl * 1000 < now →
      getDraftFrom (memSet mem (draftKey chatId) dr ttl t0) chatId now =
        initialDraft) ∧
    initialDraft =
      { step := some Step.name, user := some emptyUser, item := none,
        qty := none, address := some emptyAddress,
        schedule := some emptySchedule, latestFileId := none,
        latestFileUrl := none } := by
  refine ⟨?_, ?_, ?_, rfl⟩
  · intro mem chatId now h
    simp only [getDraftFrom, getDraft, h, Option.getD_none]
  · intro chatId now
    rfl
  · intro mem chatId dr ttl t0 now h
    have hge : memGet (memSet mem (draftKey chatId) dr ttl t0)
        (draftKey chatId) now = none := by
      simp only [memGet, memSet, List.find?]
      rw [show (draftKey chatId == draftKey chatId) = true by simp]
      simp only []
      split
      · rfl
      · omega
    simp only [getDraftFrom, getDraft, hge, Option.getD_none]

/-- Witness for C10: concrete empty store, and a concrete expired entry. -/
theorem c10_witness :
    (memGet ([] : Mem Draft) (draftKey 7) 5 = none ∧
      getDraftFrom [] 7 5 = initialDraft) ∧
    (0 + 3600 * 1000 < 3600001 ∧
      getDraftFrom (memSet [] (draftKey 7) draftCpf 3600 0) 7 3600001 =
        initialDraft) :=
  ⟨⟨by decide, c10_getDraft_total.1 [] 7 5 (by decide)⟩,
   ⟨by decide, c10_getDraft_total.2.2.1 [] 7 draftCpf 3600 0 3600001
      (by decide)⟩⟩

/-! ## Claim C3: invalid input never advances state (corrected)

As stated over every draft the claim fails: the text dispatcher falls
back on field presence, so a draft whose step is the national-ID state
but whose user name is still unset treats any text — including one that
fails the national-ID check — as the name, changing the draft. -/

/-- C3 counterexample: with step `cpf` but no stored name, the failing
text `abc` is accepted as the name, so the draft does change. -/
theorem c3_counterexample :
    draftCpfNoName.step = some Step.cpf ∧
    isValidCPF (onlyDigitsS (trimS "abc")) = false ∧
    (textStep oraclesStub draftCpfNoName "abc").1 ≠ draftCpfNoName ∧
    uname (textStep oraclesStub draftCpfNoName "abc").1 = some "abc" := by
  exact ⟨rfl, by decide, by decide, by decide⟩

/-- C3 (amended): for every draft whose populated profile fields are
consistent with the current step (in particular the user name is present
once the step is past `name`), a text event failing the current step's
validation produces the corresponding reprompt and leaves the entire
draft unchanged. -/
theorem c3_invalid_input_amended (o : Oracles) (d : Draft) (txt : String) :
    (d.step = some Step.cpf → truthy (uname d) = true →
      isValidCPF (onlyDigitsS (trimS txt)) = false →
      textStep o d txt = (d, msgCPFInvalid)) ∧
    (d.step = some Step.phone → truthy (uname d) = true →
      truthy (ucpf d) = true → isValidPhone (trimS txt) = false →
      textStep o d txt = (d, msgPhoneInvalid)) ∧
    (d.step = some Step.await_qty → truthy (uname d) = true →
      truthy (ucpf d) = true → truthy (uphone d) = true →
      d.item.isSome = true → qtyTruthy d.qty = false →
      natOfDigits (onlyDigitsL (trimS txt).toList) = 0 →
      textStep o d txt = (d, msgQtyInvalid)) ∧
    (d.step = some Step.await_cep → truthy (uname d) = true →
      truthy (ucpf d) = true → truthy (uphone d) = true →
      d.item.isSome = true → qtyTruthy d.qty = true →
      truthy (acep d) = false →
      (onlyDigitsS (trimS txt)).toList.length ≠ 8 →
      textStep o d txt = (d, msgCEPInvalid)) ∧
    (∀ via : ViaCEP, d.step = some Step.await_cep →
      truthy (uname d) = true → truthy (ucpf d) = true →
      truthy (uphone d) = true → d.item.isSome = true →
      qtyTruthy d.qty = true → truthy (acep d) = false →
      (onlyDigitsS (trimS txt)).toList.length = 8 →
      o.viacep (onlyDigitsS (trimS txt)) = Except.ok via →
      via.erro = true → textStep o d txt = (d, msgCEPNotFound)) ∧
    (d.step = some Step.await_cep → truthy (uname d) = true →
      truthy (ucpf d) = true → truthy (uphone d) = true →
      d.item.isSome = true → qtyTruthy d.qty = true →
      truthy (acep d) = false →
      (onlyDigitsS (trimS txt)).toList.length = 8 →
      o.viacep (onlyDigitsS (trimS txt)) = Except.error () →
      textStep o d txt = (d, msgCEPFail)) ∧
    (d.step = some Step.await_number → truthy (uname d) = true →
      truthy (ucpf d) = true → truthy (uphone d) = true →
      d.item.isSome = true → qtyTruthy d.qty = true →
      truthy (acep d) = true → parseNumero (trimS txt) = none →
      textStep o d txt = (d, msgNumberInvalid)) := by
  refine ⟨?_, ?_, ?_, ?_, ?_, ?_, ?_⟩
  · intro hs hn hv
    exact textStep_cpf_reject o d txt (by simp [hs, hn]) (Or.inl hs) hv
  · intro hs hn hc hv
    exact textStep_phone_reject o d txt (by simp [hs, hn])
      (by simp [hs, hc]) (Or.inl hs) hv
  · intro hs hn hc hp hi hq hz
    exact textStep_qty_reject o d txt (by simp [hs, hn]) (by simp [hs, hc])
      (by simp [hs, hp]) ⟨hs, hi, hq⟩ hz
  · intro hs hn hc hp hi hq ha hlen
    exact textStep_cep_badlen o d txt (by simp [hs, hn]) (by simp [hs, hc])
      (by simp [hs, hp]) (by simp [hs]) ⟨hs, hi, hq, ha⟩ hlen
  · intro via hs hn hc hp hi hq ha hlen hok herr
    exact textStep_cep_notFound o d txt via (by simp [hs, hn])
      (by simp [hs, hc]) (by simp [hs, hp]) (by simp [hs])
      ⟨hs, hi, hq, ha⟩ hlen hok herr
  · intro hs hn hc hp hi hq ha hlen hfail
    exact textStep_cep_fail o d txt (by simp [hs, hn]) (by simp [hs, hc])
      (by simp [hs, hp]) (by simp [hs]) ⟨hs, hi, hq, ha⟩ hlen hfail
  · intro hs hn hc hp hi hq ha hp2
    exact textStep_number_reject o d txt (by simp [hs, hn])
      (by simp [hs, hc]) (by simp [hs, hp]) (by simp [hs]) (by simp [hs, ha])
      ⟨hs, hi, hq, ha⟩ hp2

/-- Witness for C3: the failing text `abc` at a consistent national-ID
draft reprompts and leaves the draft unchanged. -/
theorem c3_witness :
    draftCpf.step = some Step.cpf ∧ truthy (uname draftCpf) = true ∧
    isValidCPF (onlyDigitsS (trimS "abc")) = false ∧
    textStep oraclesStub draftCpf "abc" = (draftCpf, msgCPFInvalid) :=
  ⟨rfl, by decide, by decide,
    (c3_invalid_input_amended oraclesStub draftCpf "abc").1 rfl (by decide)
      (by decide)⟩

/-! ## Claim C9: postal-code failure handling -/

/-- C9: in the awaitCep state (with its dispatch prerequisites), an input
that does not strip to exactly 8 digits is rejected; a lookup flagged
not-found reprompts with a message distinct from the transport-failure
message; in every failure case the draft is unchanged, and address and
step change only on a successful lookup. -/
theorem c9_cep_errors (o : Oracles) (d : Draft) (txt : String)
    (hs : d.step = some Step.await_cep) (hn : truthy (uname d) = true)
    (hc : truthy (ucpf d) = true) (hp : truthy (uphone d) = true)
    (hi : d.item.isSome = true) (hq : qtyTruthy d.qty = true)
    (ha : truthy (acep d) = false) :
    ((onlyDigitsS (trimS txt)).toList.length ≠ 8 →
      textStep o d txt = (d, msgCEPInvalid)) ∧
    (∀ via : ViaCEP, (onlyDigitsS (trimS txt)).toList.length = 8 →
      o.viacep (onlyDigitsS (trimS txt)) = Except.ok via → via.erro = true →
      textStep o d txt = (d, msgCEPNotFound)) ∧
    ((onlyDigitsS (trimS txt)).toList.length = 8 →
      o.viacep (onlyDigitsS (trimS txt)) = Except.error () →
      textStep o d txt = (d, msgCEPFail)) ∧
    (∀ via : ViaCEP, (onlyDigitsS (trimS txt)).toList.length = 8 →
      o.viacep (onlyDigitsS (trimS txt)) = Except.ok via → via.erro = false →
      textStep o d txt =
        ({ d with
            address := some ⟨via.cep, via.logradouro, via.bairro,
              via.localidade, via.uf, none, via.complemento⟩,
            step := some Step.await_number },
         msgAddrFound ⟨via.cep, via.logradouro, via.bairro, via.localidade,
           via.uf, none, via.complemento⟩)) ∧
    msgCEPNotFound ≠ msgCEPFail := by
  refine ⟨?_, ?_, ?_, ?_, by decide⟩
  · intro hlen
    exact textStep_cep_badlen o d txt (by simp [hs, hn]) (by simp [hs, hc])
      (by simp [hs, hp]) (by simp [hs]) ⟨hs, hi, hq, ha⟩ hlen
  · intro via hlen hok herr
    exact textStep_cep_notFound o d txt via (by simp [hs, hn])
      (by simp [hs, hc]) (by simp [hs, hp]) (by simp [hs])
      ⟨hs, hi, hq, ha⟩ hlen hok herr
  · intro hlen hfail
    exact textStep_cep_fail o d txt (by simp [hs, hn]) (by simp [hs, hc])
      (by simp [hs, hp]) (by simp [hs]) ⟨hs, hi, hq, ha⟩ hlen hfail
  · intro via hlen hok herr
    exact textStep_cep_ok o d txt via (by simp [hs, hn]) (by simp [hs, hc])
      (by simp [hs, hp]) (by simp [hs]) ⟨hs, hi, hq, ha⟩ hlen hok herr

/-- Witness for C9: a 3-digit input is rejected, and a transport failure
on an 8-digit input reprompts with the transport message; the draft is
unchanged in both cases. -/
theorem c9_witness :
    (textStep oraclesStub draftCep "abc" = (draftCep, msgCEPInvalid)) ∧
    (textStep oraclesStub draftCep "01001-000" = (draftCep, msgCEPFail)) :=
  ⟨(c9_cep_errors oraclesStub draftCep "abc" rfl (by decide) (by decide)
      (by decide) (by decide) (by decide) (by decide)).1 (by decide),
   (c9_cep_errors oraclesStub draftCep "01001-000" rfl (by decide)
      (by decide) (by decide) (by decide) (by decide) (by decide)).2.2.1
      (by decide) rfl⟩

/-! ## Claim C7: deferred classification of a stashed media upload -/

/-- C7: a media upload (photo or image document) arriving while the
profile is incomplete is stashed as a file reference without being
classified, with a reprompt for the next missing profile field; once the
phone — the final profile field — validates, the stashed reference is
classified automatically and the draft moves to the confirmation step. -/
theorem c7_pending_media (o : Oracles) (d : Draft) (fid : String)
    (mime : Option String) (txt : String) (p : Pred) :
    (truthy (uname d) = false →
      photoStep o d fid = ({ d with latestFileId := some fid }, msgNeedName) ∧
      (mimeIsImage mime = true →
        documentStep o d mime fid =
          ({ d with latestFileId := some fid }, msgNeedName))) ∧
    (truthy (uname d) = true → truthy (ucpf d) = false →
      photoStep o d fid = ({ d with latestFileId := some fid }, msgNeedCPF) ∧
      (mimeIsImage mime = true →
        documentStep o d mime fid =
          ({ d with latestFileId := some fid }, msgNeedCPF))) ∧
    (truthy (uname d) = true → truthy (ucpf d) = true →
      truthy (uphone d) = false →
      photoStep o d fid = ({ d with latestFileId := some fid }, msgNeedPhone) ∧
      (mimeIsImage mime = true →
        documentStep o d mime fid =
          ({ d with latestFileId := some fid }, msgNeedPhone))) ∧
    (d.step = some Step.phone → truthy (uname d) = true →
      truthy (ucpf d) = true → isValidPhone (trimS txt) = true →
      d.latestFileId = some fid → o.classify fid = Except.ok p →
      textStep o d txt =
        ({ d with
            user := some { (d.user.getD emptyUser) with
              phone := some (formatPhone (onlyDigitsS (trimS txt))) },
            step := some Step.await_confirm,
            latestFileId := some fid,
            latestFileUrl := some (o.fileUrl fid),
            item := some p }, msgDetected (toPT p.label))) := by
  refine ⟨?_, ?_, ?_, ?_⟩
  · intro h
    constructor
    · simp only [photoStep]
      rw [if_pos h]
    · intro hm
      simp only [documentStep]
      rw [if_neg (by simp [hm]), if_pos h]
  · intro hn h
    constructor
    · simp only [photoStep]
      rw [if_neg (by simp [hn]), if_pos h]
    · intro hm
      simp only [documentStep]
      rw [if_neg (by simp [hm]), if_neg (by simp [hn]), if_pos h]
  · intro hn hc h
    constructor
    · simp only [photoStep]
      rw [if_neg (by simp [hn]), if_neg (by simp [hc]), if_pos h]
    · intro hm
      simp only [documentStep]
      rw [if_neg (by simp [hm]), if_neg (by simp [hn]),
        if_neg (by simp [hc]), if_pos h]
  · intro hs hn hc hv hf hcl
    exact textStep_phone_accept_classified o d txt fid p (by simp [hs, hn])
      (by simp [hs, hc]) (Or.inl hs) hv hf hcl

/-- Witness for C7: a photo at the fresh draft is stashed with a name
reprompt; a valid phone at a draft with a stashed file classifies it and
moves to confirmation. -/
theorem c7_witness :
    (photoStep oraclesHappy initialDraft "file1" =
      ({ initialDraft with latestFileId := some "file1" }, msgNeedName)) ∧
    textStep oraclesHappy draftPhoneStash "11987654321" =
      ({ draftPhoneStash with
          user := some ⟨some "Maria Silva", some "529.982.247-25",
            some "(11) 98765-4321"⟩,
          step := some Step.await_confirm,
          latestFileId := some "file1",
          latestFileUrl := some "https://files/file1",
          item := some ⟨"Battery", 1⟩ }, msgDetected (toPT "Battery")) := by
  constructor
  · exact ((c7_pending_media oraclesHappy initialDraft "file1" none "x"
      ⟨"Battery", 1⟩).1 (by decide)).1
  · have h := (c7_pending_media oraclesHappy draftPhoneStash "file1" none
      "11987654321" ⟨"Battery", 1⟩).2.2.2 rfl (by decide) (by decide)
      (by decide) rfl rfl
    exact h.trans (by decide)

/-! ## Claim C8: quantity validation (corrected)

As stated the claim fails: the manual-quantity branch clamps any
positive value to 999 instead of rejecting values above the bound, so
`1000` is accepted (with `qty = 999 ≠ 1000`). -/

/-- C8 counterexample: at the quantity state the text `1000` — which
denotes a positive integer above the bound — is accepted, the step
advances and `qty` is set to the clamp 999 rather than to the denoted
integer. -/
theorem c8_counterexample :
    (1000 : Nat) > 999 ∧
    natOfDigits (onlyDigitsL (trimS "1000").toList) = 1000 ∧
    textStep oraclesStub draftQty "1000" =
      ({ draftQty with qty := some 999, step := some Step.await_cep },
       msgAskCEP) := by
  exact ⟨by decide, by decide, by decide⟩

/-- C8 (amended): at the quantity state a text input is accepted exactly
when its digit-stripped value is a positive integer; on acceptance `qty`
is set to the value clamped to at most 999 (hence always between 1 and
999) and the step becomes awaitCep, while zero or non-numeric input is
rejected with a reprompt.  A numeric quantity selection is likewise
clamped into `[1, 999]`. -/
theorem c8_qty_amended (o : Oracles) (d : Draft) (txt p : String) (v : Nat) :
    (d.step = some Step.await_qty → truthy (uname d) = true →
      truthy (ucpf d) = true → truthy (uphone d) = true →
      d.item.isSome = true → qtyTruthy d.qty = false →
      (natOfDigits (onlyDigitsL (trimS txt).toList) = 0 →
        textStep o d txt = (d, msgQtyInvalid)) ∧
      (natOfDigits (onlyDigitsL (trimS txt).toList) ≠ 0 →
        textStep o d txt =
          ({ d with
              qty := some (min 999 (natOfDigits (onlyDigitsL (trimS txt).toList))),
              step := some Step.await_cep }, msgAskCEP) ∧
        1 ≤ min 999 (natOfDigits (onlyDigitsL (trimS txt).toList)) ∧
        min 999 (natOfDigits (onlyDigitsL (trimS txt).toList)) ≤ 999)) ∧
    (p ≠ "other" → p ≠ "range" → jsNumber p = some v →
      callbackStep d (cbData "qty" p) =
        ({ d with
            qty := some (max 1 (min 999 v)),
            step := some Step.await_cep },
         some (msgQtyChosen (toString (max 1 (min 999 v))))) ∧
      1 ≤ max 1 (min 999 v) ∧ max 1 (min 999 v) ≤ 999) := by
  constructor
  · intro hs hn hc hp hi hq
    constructor
    · intro hz
      exact textStep_qty_reject o d txt (by simp [hs, hn]) (by simp [hs, hc])
        (by simp [hs, hp]) ⟨hs, hi, hq⟩ hz
    · intro hz
      refine ⟨textStep_qty_accept o d txt (by simp [hs, hn])
        (by simp [hs, hc]) (by simp [hs, hp]) ⟨hs, hi, hq⟩ hz, ?_, ?_⟩
      · omega
      · omega
  · intro ho hr hn2
    exact ⟨callbackStep_qty_num d p v ho hr hn2, by omega, by omega⟩

/-! ## Claim C6: day and slot catalogs (corrected)

The catalogs themselves behave as claimed, but the callback handler
performs no membership validation at all: any `day:` or `time:` payload
is accepted.  Membership is enforced only by what the keyboards offer. -/

lemma cbData_inj (k : String) {p q : String}
    (h : cbData k p = cbData k q) : p = q := by
  have hd := congrArg String.data h
  dsimp only [cbData] at hd
  have h2 := List.append_cancel_left hd
  rw [List.cons.injEq] at h2
  exact congrArg String.mk h2.2

lemma toList_cbData (k p : String) :
    (cbData k p).toList = k.toList ++ ':' :: p.toList := rfl

lemma getD_range_map (f : Nat → String) (n i : Nat) (h : i < n) :
    ((List.range n).map f).getD i "" = f i := by
  rw [List.getD_eq_getElem?_getD, List.getElem?_map, List.getElem?_range h]
  rfl

/-- C6 counterexample: the engine accepts a day selection whose payload
is not among the generated dates (here with today being day 0) — the
handler performs no membership validation. -/
theorem c6_counterexample :
    (callbackStep draftDay "day:banana").1.step = some Step.await_time ∧
    (callbackStep draftDay "day:banana").1.schedule =
      some ⟨some "banana", none⟩ ∧
    "banana" ∉ nextDays 0 7 := by
  exact ⟨by decide, by decide, by decide⟩

/-- C6 (amended): the day catalog yields exactly 7 dates, the i-th being
the ISO rendering of `today + i` (consecutive ascending calendar days
starting today); the slot catalog is the fixed ordered list; the
keyboards carry exactly those values as selections; but the engine
accepts any day or time payload without checking membership — the day
handler stores any payload and moves to the time step, and the time
handler stores any split payload with the step untouched. -/
theorem c6_day_catalog_amended :
    (∀ today : Nat, (nextDays today 7).length = 7) ∧
    (∀ today n i : Nat, i < n →
      (nextDays today n).getD i "" = isoOfDay (today + i)) ∧
    TIME_SLOTS = ["09:00", "11:00", "14:00", "16:00", "18:00"] ∧
    (∀ (today : Nat) (p : String),
      cbData "day" p ∈ kbDaysData today ↔ p ∈ nextDays today 7) ∧
    (∀ (dayISO p : String),
      cbData "time" p ∈ kbTimesData dayISO ↔
        ∃ t ∈ TIME_SLOTS, p = dayISO ++ "T" ++ t) ∧
    (∀ (d : Draft) (p : String),
      (callbackStep d (cbData "day" p)).1 =
        { d with
            schedule := some { (d.schedule.getD emptySchedule) with day := some p },
            step := some Step.await_time }) ∧
    (∀ (d : Draft) (p : String),
      (callbackStep d (cbData "time" p)).1.schedule =
        some ⟨some (splitT p).1, (splitT p).2⟩ ∧
      (callbackStep d (cbData "time" p)).1.step = d.step) := by
  refine ⟨?_, ?_, rfl, ?_, ?_, ?_, ?_⟩
  · intro today
    simp [nextDays]
  · intro today n i h
    exact getD_range_map (fun j => isoOfDay (today + j)) n i h
  · intro today p
    constructor
    · intro hm
      rcases List.mem_append.mp hm with hm | hm
      · rcases List.mem_map.mp hm with ⟨a, ha, he⟩
        rwa [cbData_inj "day" he] at ha
      · exfalso
        simp only [List.mem_singleton] at hm
        have := congrArg String.toList hm
        rw [toList_cbData] at this
        simp at this
    · intro hm
      exact List.mem_append.mpr (Or.inl (List.mem_map.mpr ⟨p, hm, rfl⟩))
  · intro dayISO p
    constructor
    · intro hm
      rcases List.mem_append.mp hm with hm | hm
      · rcases List.mem_map.mp hm with ⟨t, ht, he⟩
        exact ⟨t, ht, (cbData_inj "time" he).symm⟩
      · exfalso
        rcases List.mem_cons.mp hm with hm | hm
        · have := congrArg String.toList hm
          rw [toList_cbData] at this
          simp at this
        · simp only [List.mem_singleton] at hm
          have := congrArg String.toList hm
          rw [toList_cbData] at this
          simp at this
    · rintro ⟨t, ht, rfl⟩
      exact List.mem_append.mpr
        (Or.inl (List.mem_map.mpr ⟨t, ht, rfl⟩))
  · intro d p
    rw [callbackStep_day]
  · intro d p
    refine ⟨?_, callbackStep_time_step d p⟩
    rw [callbackStep_time]
    dsimp only
    split <;> rfl

/-- Witness for C6: the fourth generated day for day 0 is the rendering
of day 3, and a generated date is indeed offered by the keyboard. -/
theorem c6_witness :
    (3 < 7 ∧ (nextDays 0 7).getD 3 "" = isoOfDay (0 + 3)) ∧
    cbData "day" (isoOfDay 2) ∈ kbDaysData 0 :=
  ⟨⟨by decide, c6_day_catalog_amended.2.1 0 7 3 (by decide)⟩,
   (c6_day_catalog_amended.2.2.2.1 0 (isoOfDay 2)).mpr (by decide)⟩

/-! ## Claim C5: step monotonicity (corrected)

The claim is false as stated — and even against the spec's own
transition table: the confirm-no selection moves the step from the
confirmation state back to the photo state, an earlier non-initial
state. -/

/-- C5 counterexample: a confirm-no selection at the confirmation state
is accepted and moves the step back to `await_photo`, which is earlier in
the fixed ordering and is not the initial state. -/
theorem c5_counterexample :
    draftConfirm.step = some Step.await_confirm ∧
    (callbackStep draftConfirm "confirm:no").1.step =
      some Step.await_photo ∧
    ordNat Step.await_photo < ordNat Step.await_confirm ∧
    Step.await_photo ≠ Step.name := by
  exact ⟨rfl, by decide, by decide, by decide⟩

/-- C5 (amended): over drafts whose field presence is consistent with
their step and events the bot offers at that step, the step never moves
to an earlier non-initial state, except for the confirm-no selection
which returns to `await_photo`; cancellation (and `/start`) resets to the
initial state, while completion leaves the step at `await_time`. -/
theorem c5_step_monotone_amended (o : Oracles) (today : Nat) (d : Draft)
    (ev : Ev) (hw : wellFormed d) (ho : offeredAt today d ev) :
    ordOpt d.step ≤ ordOpt (stepFn o d ev).1.step ∨
    (stepFn o d ev).1.step = some Step.name ∨
    (ev = Ev.callback "confirm:no" ∧
      (stepFn o d ev).1.step = some Step.await_photo) := by
  cases ev with
  | cmdStart =>
      right
      left
      rfl
  | cmdCancel =>
      right
      left
      rfl
  | photo f =>
      left
      simp only [stepFn]
      rcases photoStep_step o d f with h | h
      · rw [h]
      · rw [h]
        rcases ho with hs | hs | hs | hs <;> rw [hs] <;> exact Nat.le_of_ble_eq_true rfl
  | document m f =>
      left
      simp only [stepFn]
      rcases documentStep_step o d m f with h | h
      · rw [h]
      · rw [h]
        rcases ho with hs | hs | hs | hs <;> rw [hs] <;> exact Nat.le_of_ble_eq_true rfl
  | callback data =>
      rcases ho with ⟨hs, hd⟩ | ⟨hs, hd⟩ | ⟨hs, hd⟩ | ⟨hs, hd⟩ | hd
      · simp only [kbConfirmData, List.mem_cons, List.not_mem_nil,
          or_false] at hd
        rcases hd with rfl | rfl
        · left
          simp only [stepFn]
          rw [callbackStep_confirm_yes, hs]
          exact Nat.le_of_ble_eq_true rfl
        · right
          right
          refine ⟨rfl, ?_⟩
          simp only [stepFn]
          rw [callbackStep_confirm_no]
      · simp only [kbQtyData, List.mem_cons, List.not_mem_nil,
          or_false] at hd
        left
        simp only [stepFn]
        rcases hd with rfl | rfl | rfl | rfl | rfl | rfl | rfl | rfl <;>
          rw [hs] <;> exact Nat.le_of_ble_eq_true rfl
      · rcases List.mem_append.mp hd with hm | hm
        · rcases List.mem_map.mp hm with ⟨iso, _, rfl⟩
          left
          simp only [stepFn]
          rw [callbackStep_day, hs]
          exact Nat.le_of_ble_eq_true rfl
        · simp only [List.mem_singleton] at hm
          subst hm
          right
          left
          simp only [stepFn]
          rw [callbackStep_cancel]
          rfl
      · obtain ⟨iso, hd⟩ := hd
        rcases List.mem_append.mp hd with hm | hm
        · rcases List.mem_map.mp hm with ⟨slot, _, rfl⟩
          left
          simp only [stepFn]
          rw [callbackStep_time_step]
        · simp only [List.mem_cons, List.not_mem_nil, or_false] at hm
          rcases hm with rfl | rfl
          · left
            simp only [stepFn]
            rw [callbackStep_back_days]
          · right
            left
            simp only [stepFn]
            rw [callbackStep_cancel]
            rfl
      · subst hd
        right
        left
        simp only [stepFn]
        rw [callbackStep_cancel]
        rfl
  | text t =>
      cases hs : d.step with
      | none =>
          simp only [wellFormed, hs] at hw
      | some s =>
          cases s with
          | name =>
              left
              simp only [stepFn]
              rw [textStep_name o d t (Or.inl hs)]
              exact Nat.le_of_ble_eq_true rfl
          | cpf =>
              have hw' := hw
              simp only [wellFormed, hs] at hw'
              left
              simp only [stepFn]
              cases hv : isValidCPF (onlyDigitsS (trimS t)) with
              | false =>
                  rw [textStep_cpf_reject o d t (by simp [hs, hw'])
                    (Or.inl hs) hv]
                  exact le_of_eq (congrArg ordOpt hs.symm)
              | true =>
                  rw [textStep_cpf_accept o d t (by simp [hs, hw'])
                    (Or.inl hs) hv]
                  exact Nat.le_of_ble_eq_true rfl
          | phone =>
              have hw' := hw
              simp only [wellFormed, hs] at hw'
              left
              simp only [stepFn]
              cases hv : isValidPhone (trimS t) with
              | false =>
                  rw [textStep_phone_reject o d t (by simp [hs, hw'.1])
                    (by simp [hs, hw'.2]) (Or.inl hs) hv]
                  exact le_of_eq (congrArg ordOpt hs.symm)
              | true =>
                  cases hf : d.latestFileId with
                  | none =>
                      rw [textStep_phone_accept_noFile o d t
                        (by simp [hs, hw'.1]) (by simp [hs, hw'.2])
                        (Or.inl hs) hv hf]
                      exact Nat.le_of_ble_eq_true rfl
                  | some fid =>
                      cases hc : o.classify fid with
                      | ok p =>
                          rw [textStep_phone_accept_classified o d t fid p
                            (by simp [hs, hw'.1]) (by simp [hs, hw'.2])
                            (Or.inl hs) hv hf hc]
                          exact Nat.le_of_ble_eq_true rfl
                      | error e =>
                          rw [textStep_phone_accept_classifyErr o d t fid e
                            (by simp [hs, hw'.1]) (by simp [hs, hw'.2])
                            (Or.inl hs) hv hf hc]
                          exact Nat.le_of_ble_eq_true rfl
          | await_photo =>
              have hw' := hw
              simp only [wellFormed, hs] at hw'
              left
              simp only [stepFn]
              rw [textStep_fallthrough o d t (by simp [hs, hw'.1])
                (by simp [hs, hw'.2.1]) (by simp [hs, hw'.2.2])
                (by simp [hs]) (by simp [hs]) (by simp [hs]) (by simp [hs])]
              exact le_of_eq (congrArg ordOpt hs.symm)
          | await_confirm =>
              have hw' := hw
              simp only [wellFormed, hs] at hw'
              left
              simp only [stepFn]
              rw [textStep_fallthrough o d t (by simp [hs, hw'.1])
                (by simp [hs, hw'.2.1]) (by simp [hs, hw'.2.2.1])
                (by simp [hs]) (by simp [hs]) (by simp [hs]) (by simp [hs])]
              exact le_of_eq (congrArg ordOpt hs.symm)
          | await_qty =>
              have hw' := hw
              simp only [wellFormed, hs] at hw'
              left
              simp only [stepFn]
              by_cases hz : natOfDigits (onlyDigitsL (trimS t).toList) = 0
              · rw [textStep_qty_reject o d t (by simp [hs, hw'.1])
                  (by simp [hs, hw'.2.1]) (by simp [hs, hw'.2.2.1])
                  ⟨hs, hw'.2.2.2.1, hw'.2.2.2.2⟩ hz]
                exact le_of_eq (congrArg ordOpt hs.symm)
              · rw [textStep_qty_accept o d t (by simp [hs, hw'.1])
                  (by simp [hs, hw'.2.1]) (by simp [hs, hw'.2.2.1])
                  ⟨hs, hw'.2.2.2.1, hw'.2.2.2.2⟩ hz]
                exact Nat.le_of_ble_eq_true rfl
          | await_cep =>
              have hw' := hw
              simp only [wellFormed, hs] at hw'
              left
              simp only [stepFn]
              by_cases hlen : (onlyDigitsS (trimS t)).toList.length = 8
              · cases hcv : o.viacep (onlyDigitsS (trimS t)) with
                | error e =>
                    cases e
                    rw [textStep_cep_fail o d t (by simp [hs, hw'.1])
                      (by simp [hs, hw'.2.1]) (by simp [hs, hw'.2.2.1])
                      (by simp [hs])
                      ⟨hs, hw'.2.2.2.1, hw'.2.2.2.2.1, hw'.2.2.2.2.2⟩
                      hlen hcv]
                    exact le_of_eq (congrArg ordOpt hs.symm)
                | ok via =>
                    cases herr : via.erro with
                    | true =>
                        rw [textStep_cep_notFound o d t via
                          (by simp [hs, hw'.1]) (by simp [hs, hw'.2.1])
                          (by simp [hs, hw'.2.2.1]) (by simp [hs])
                          ⟨hs, hw'.2.2.2.1, hw'.2.2.2.2.1, hw'.2.2.2.2.2⟩
                          hlen hcv herr]
                        exact le_of_eq (congrArg ordOpt hs.symm)
                    | false =>
                        rw [textStep_cep_ok o d t via (by simp [hs, hw'.1])
                          (by simp [hs, hw'.2.1]) (by simp [hs, hw'.2.2.1])
                          (by simp [hs])
                          ⟨hs, hw'.2.2.2.1, hw'.2.2.2.2.1, hw'.2.2.2.2.2⟩
                          hlen hcv herr]
                        exact Nat.le_of_ble_eq_true rfl
              · rw [textStep_cep_badlen o d t (by simp [hs, hw'.1])
                  (by simp [hs, hw'.2.1]) (by simp [hs, hw'.2.2.1])
                  (by simp [hs])
                  ⟨hs, hw'.2.2.2.1, hw'.2.2.2.2.1, hw'.2.2.2.2.2⟩ hlen]
                exact le_of_eq (congrArg ordOpt hs.symm)
          | await_number =>
              have hw' := hw
              simp only [wellFormed, hs] at hw'
              left
              simp only [stepFn]
              cases hp2 : parseNumero (trimS t) with
              | none =>
                  rw [textStep_number_reject o d t (by simp [hs, hw'.1])
                    (by simp [hs, hw'.2.1]) (by simp [hs, hw'.2.2.1])
                    (by simp [hs]) (by simp [hs])
                    ⟨hs, hw'.2.2.2.1, hw'.2.2.2.2.1, hw'.2.2.2.2.2⟩ hp2]
                  exact le_of_eq (congrArg ordOpt hs.symm)
              | some nc =>
                  rw [textStep_number_accept o d t nc (by simp [hs, hw'.1])
                    (by simp [hs, hw'.2.1]) (by simp [hs, hw'.2.2.1])
                    (by simp [hs]) (by simp [hs])
                    ⟨hs, hw'.2.2.2.1, hw'.2.2.2.2.1, hw'.2.2.2.2.2⟩ hp2]
                  exact Nat.le_of_ble_eq_true rfl
          | await_day =>
              have hw' := hw
              simp only [wellFormed, hs] at hw'
              left
              simp only [stepFn]
              rw [textStep_fallthrough o d t (by simp [hs, hw'.1])
                (by simp [hs, hw'.2.1]) (by simp [hs, hw'.2.2.1])
                (by simp [hs]) (by simp [hs]) (by simp [hs]) (by simp [hs])]
              exact le_of_eq (congrArg ordOpt hs.symm)
          | await_time =>
              have hw' := hw
              simp only [wellFormed, hs] at hw'
              left
              simp only [stepFn]
              rw [textStep_fallthrough o d t (by simp [hs, hw'.1])
                (by simp [hs, hw'.2.1]) (by simp [hs, hw'.2.2.1])
                (by simp [hs]) (by simp [hs]) (by simp [hs]) (by simp [hs])]
              exact le_of_eq (congrArg ordOpt hs.symm)

/-- Witness for C5: a day selection offered at the day step with day 0 as
today is accepted and moves the step forward. -/
theorem c5_witness :
    wellFormed draftDay ∧
    offeredAt 0 draftDay (Ev.callback (cbData "day" (isoOfDay 2))) ∧
    (ordOpt draftDay.step ≤
        ordOpt (stepFn oraclesStub draftDay
          (Ev.callback (cbData "day" (isoOfDay 2)))).1.step ∨
      (stepFn oraclesStub draftDay
        (Ev.callback (cbData "day" (isoOfDay 2)))).1.step =
          some Step.name ∨
      (Ev.callback (cbData "day" (isoOfDay 2)) = Ev.callback "confirm:no" ∧
        (stepFn oraclesStub draftDay
          (Ev.callback (cbData "day" (isoOfDay 2)))).1.step =
            some Step.await_photo)) := by
  have hw : wellFormed draftDay := by
    have hds : draftDay.step = some Step.await_day := rfl
    simp only [wellFormed, hds]
    exact ⟨by decide, by decide, by decide, by decide, by decide, by decide⟩
  have ho : offeredAt 0 draftDay (Ev.callback (cbData "day" (isoOfDay 2))) :=
    Or.inr (Or.inr (Or.inl ⟨rfl, by decide⟩))
  exact ⟨hw, ho,
    c5_step_monotone_amended oraclesStub 0 draftDay
      (Ev.callback (cbData "day" (isoOfDay 2))) hw ho⟩

/-- Witness for C8: the text `3` is accepted with `qty = 3`, and the
keyboard payload `5` is clamped (trivially) to 5. -/
theorem c8_witness :
    (textStep oraclesStub draftQty "3" =
      ({ draftQty with qty := some 3, step := some Step.await_cep },
       msgAskCEP)) ∧
    callbackStep draftQty (cbData "qty" "5") =
      ({ draftQty with qty := some 5, step := some Step.await_cep },
       some (msgQtyChosen "5")) := by
  constructor
  · have h := (((c8_qty_amended oraclesStub draftQty "3" "5" 5).1 rfl
      (by decide) (by decide) (by decide) (by decide) (by decide)).2
      (by decide)).1
    exact h.trans (by decide)
  · have h := ((c8_qty_amended oraclesStub draftQty "3" "5" 5).2
      (by decide) (by decide) (by decide)).1
    exact h.trans (by decide)

end Ecoleta
